import Mathlib

/-!
Verification of the key-detection engine of PianoImprovisationHelper
(`src/services/keyDetection.ts`), shallowly embedded over `ℝ`.

Histograms are `List ℝ` (the TS arrays of `number`).  Fallible entry points
(`throw new Error`) are embedded as `Except String`.  The JS `null` result is
`Option.none`.
-/

namespace KeyDetect

noncomputable section

/-- Mode of a key, `'major' | 'minor'` in the source. -/
inductive Mode
| major
| minor
deriving DecidableEq

/-- KeyDetectionResult from the source. -/
structure KeyDetectionResult where
  tonic : String
  mode : Mode
  confidence : ℝ
  profile : List ℝ

/-- KeyCandidate from the source. -/
structure KeyCandidate where
  tonic : String
  mode : Mode
  score : ℝ

/-- MAJOR_PROFILE constant (Krumhansl-Schmuckler weights) from the source. -/
def MAJOR_PROFILE : List ℝ :=
  [6.35, 2.23, 3.48, 2.33, 4.38, 4.09, 2.52, 5.19, 2.39, 3.66, 2.29, 2.88]

/-- MINOR_PROFILE constant from the source. -/
def MINOR_PROFILE : List ℝ :=
  [6.33, 2.68, 3.52, 5.38, 2.60, 3.53, 2.54, 4.75, 3.98, 2.69, 3.34, 3.17]

/-- TONICS_SHARP constant from the source: the single literal
`['C','C#','D','D#','E','F','F#','G','G#','A','A#','B']`, written here as the
append of its two halves. -/
def TONICS_SHARP : List String :=
  ["C", "C#", "D", "D#", "E", "F"] ++ ["F#", "G", "G#", "A", "A#", "B"]

/-- Source `rotate(arr, n)`: `k = ((n % len) + len) % len; arr.slice(k).concat(arr.slice(0, k))`.
The JS double-remainder idiom produces the Euclidean remainder of `n` by `len`,
which is what `Int.emod` (Lean's `%` on `ℤ`) computes for the composite
expression below. -/
def rotate {α : Type} (arr : List α) (n : ℤ) : List α :=
  let len : ℤ := arr.length
  let k : ℕ := ((n % len + len) % len).toNat
  arr.drop k ++ arr.take k

/-- Source `mean(xs)`. -/
def mean (xs : List ℝ) : ℝ := xs.sum / xs.length

/-- Source `dot(a, b)`: sum of pointwise products over the common indices. -/
def dot (a b : List ℝ) : ℝ := (List.zipWith (fun x y => x * y) a b).sum

/-- Source `norm(a) = Math.sqrt(dot(a, a))`. -/
def norm (a : List ℝ) : ℝ := Real.sqrt (dot a a)

/-- The mean-centering `a.map((x) => x - am)` performed inside `corr`. -/
def centered (a : List ℝ) : List ℝ := a.map (fun x => x - mean a)

/-- Source `corr(a, b)`: Pearson correlation with a zero fallback when the
product of centered norms is zero. -/
def corr (a b : List ℝ) : ℝ :=
  let ac := centered a
  let bc := centered b
  let denom := norm ac * norm bc
  if denom = 0 then 0 else dot ac bc / denom

/-- Source `normalizeHistogram`. -/
def normalizeHistogram (hist : List ℝ) : List ℝ :=
  let total := hist.sum
  if total ≤ 0 then hist.map (fun _ => 0) else hist.map (fun x => x / total)

/-- `Math.max(...h)`: maximum of a list, with an unused default for `[]`
(the source only applies it to length-12 arrays). -/
def listMax : List ℝ → ℝ
  | [] => 0
  | x :: xs => xs.foldl max x

/-- Accumulator of the best-candidate loop in `detectKeyFromPitchClassHistogram`:
`{ tonicIndex, mode, score }`. -/
structure BestAcc where
  tonicIndex : ℕ
  mode : Mode
  score : ℝ

/-- One `if (!best || score > best.score) best = {...}` update from the source loop. -/
def updateBest (best : Option BestAcc) (t : ℕ) (m : Mode) (s : ℝ) : Option BestAcc :=
  match best with
  | none => some ⟨t, m, s⟩
  | some b => if s > b.score then some ⟨t, m, s⟩ else some b

/-- The `for (let tonicIndex = 0; tonicIndex < 12; ...)` loop of
`detectKeyFromPitchClassHistogram`, updating with the major score and then the
minor score of each tonic index. -/
def bestLoop (h : List ℝ) : Option BestAcc :=
  (List.range 12).foldl
    (fun best (tonicIndex : ℕ) =>
      let majScore := corr h (rotate MAJOR_PROFILE (tonicIndex : ℤ))
      let minScore := corr h (rotate MINOR_PROFILE (tonicIndex : ℤ))
      updateBest (updateBest best tonicIndex Mode.major majScore) tonicIndex Mode.minor minScore)
    none

/-- Source `detectKeyFromPitchClassHistogram`. -/
def detectKeyFromPitchClassHistogram (hist : List ℝ) :
    Except String (Option KeyDetectionResult) :=
  if hist.length ≠ 12 then
    .error "Pitch class histogram must have length 12"
  else
    let h := normalizeHistogram hist
    let maxBin := listMax h
    if maxBin ≤ 0 then .ok none
    else
      match bestLoop h with
      | none => .ok none
      | some best =>
          .ok (some
            { tonic := TONICS_SHARP.getD best.tonicIndex ""
              mode := best.mode
              confidence := max 0 (min 1 ((best.score + 1) / 2))
              profile := h })

/-- The candidate-collecting loop of `rankKeyCandidatesFromPitchClassHistogram`
(two `candidates.push` per tonic index). -/
def candidateLoop (h : List ℝ) : List KeyCandidate :=
  (List.range 12).foldl
    (fun acc (tonicIndex : ℕ) =>
      acc ++
        [ { tonic := TONICS_SHARP.getD tonicIndex "", mode := Mode.major,
            score := corr h (rotate MAJOR_PROFILE (tonicIndex : ℤ)) },
          { tonic := TONICS_SHARP.getD tonicIndex "", mode := Mode.minor,
            score := corr h (rotate MINOR_PROFILE (tonicIndex : ℤ)) } ])
    []

section Argmax

variable {α : Type} (f : α → ℝ)

/-- Strict-improvement selection step: keep the incumbent on ties.  This is the
`if (score > best.score)` policy of the source loop. -/
def pick1 (b e : α) : α := if f e > f b then e else b

/-- Option-valued variant matching `!best ||` in the source. -/
def updOpt (b : Option α) (e : α) : Option α :=
  match b with
  | none => some e
  | some x => if f e > f x then some e else some x

/-- Stable insertion for descending order by `f`: an element coming from
earlier in the input is placed before later elements of equal value. -/
def insertDesc (c : α) : List α → List α
  | [] => [c]
  | x :: xs => if f c ≥ f x then c :: x :: xs else x :: insertDesc c xs

/-- Stable descending sort by `f`.  This models
`candidates.sort((a, b) => b.score - a.score)`: ECMAScript `Array.prototype.sort`
is stable, and the comparator orders by score descending, so the result is
uniquely determined as the stable descending reordering. -/
def sortDesc : List α → List α
  | [] => []
  | c :: cs => insertDesc f c (sortDesc cs)

end Argmax

/-- Proof helper: the 24 `(tonicIndex, mode, score)` entries inspected by the
best-candidate loop, in the loop's visiting order (ascending tonic index,
major before minor). -/
def scoreEntries (h : List ℝ) : List BestAcc :=
  (List.range 12).foldl
    (fun acc (t : ℕ) =>
      acc ++ [⟨t, Mode.major, corr h (rotate MAJOR_PROFILE (t : ℤ))⟩,
              ⟨t, Mode.minor, corr h (rotate MINOR_PROFILE (t : ℤ))⟩])
    []

/-- Proof helper: view a loop entry as the `KeyCandidate` the ranking loop builds. -/
def toCand (e : BestAcc) : KeyCandidate :=
  ⟨TONICS_SHARP.getD e.tonicIndex "", e.mode, e.score⟩

/-- The 24 rotated-profile Pearson correlations of a histogram, computed
independently of either entry point (used to state maximality claims). -/
def allScores (h : List ℝ) : List ℝ :=
  (List.range 12).foldr
    (fun (t : ℕ) acc =>
      corr h (rotate MAJOR_PROFILE (t : ℤ)) :: corr h (rotate MINOR_PROFILE (t : ℤ)) :: acc)
    []

/-- Source `rankKeyCandidatesFromPitchClassHistogram`. -/
def rankKeyCandidatesFromPitchClassHistogram (hist : List ℝ) :
    Except String (List KeyCandidate) :=
  if hist.length ≠ 12 then
    .error "Pitch class histogram must have length 12"
  else
    let h := normalizeHistogram hist
    let maxBin := listMax h
    if maxBin ≤ 0 then .ok []
    else .ok (sortDesc (fun c => c.score) (candidateLoop h))


section ArgmaxLemmas

variable {α : Type} (f : α → ℝ)

lemma updOpt_some (x e : α) : updOpt f (some x) e = some (pick1 f x e) := by
  by_cases h : f e > f x <;> simp [updOpt, pick1, h]

lemma foldl_updOpt_some (l : List α) (b : α) :
    l.foldl (updOpt f) (some b) = some (l.foldl (pick1 f) b) := by
  induction l generalizing b with
  | nil => rfl
  | cons x xs ih => simp only [List.foldl_cons, updOpt_some, ih]

lemma pick1_eq_or (b e : α) : pick1 f b e = b ∨ pick1 f b e = e := by
  unfold pick1; split
  · exact Or.inr rfl
  · exact Or.inl rfl

lemma pick1_of_lt (b e : α) (h : f b < f e) : pick1 f b e = e := by
  unfold pick1; simp only [gt_iff_lt]; exact if_pos h

lemma pick1_of_ge (b e : α) (h : f e ≤ f b) : pick1 f b e = b := by
  unfold pick1; simp only [gt_iff_lt]; exact if_neg (not_lt.mpr h)

lemma le_pick1_left (b e : α) : f b ≤ f (pick1 f b e) := by
  unfold pick1; split
  · exact le_of_lt (by assumption)
  · exact le_rfl

lemma le_pick1_right (b e : α) : f e ≤ f (pick1 f b e) := by
  unfold pick1; split
  · exact le_rfl
  · exact le_of_not_lt (by assumption)

lemma le_foldl_pick1 (l : List α) (b : α) : f b ≤ f (l.foldl (pick1 f) b) := by
  induction l generalizing b with
  | nil => exact le_rfl
  | cons x xs ih => exact le_trans (le_pick1_left f b x) (ih (pick1 f b x))

lemma mem_le_foldl_pick1 (l : List α) (b : α) :
    ∀ e ∈ l, f e ≤ f (l.foldl (pick1 f) b) := by
  induction l generalizing b with
  | nil => intro e he; exact absurd he (List.not_mem_nil e)
  | cons x xs ih =>
      intro e he
      rcases List.mem_cons.mp he with rfl | hmem
      · exact le_trans (le_pick1_right f b e) (le_foldl_pick1 f xs (pick1 f b e))
      · exact ih (pick1 f b x) e hmem

lemma foldl_pick1_mem (l : List α) (b : α) :
    l.foldl (pick1 f) b = b ∨ l.foldl (pick1 f) b ∈ l := by
  induction l generalizing b with
  | nil => exact Or.inl rfl
  | cons x xs ih =>
      rcases ih (pick1 f b x) with h | h
      · rcases pick1_eq_or f b x with hb | hx
        · exact Or.inl (by rw [List.foldl_cons, h, hb])
        · exact Or.inr (by rw [List.foldl_cons, h, hx]; exact List.mem_cons_self x xs)
      · exact Or.inr (List.mem_cons_of_mem x h)

lemma foldl_pick1_of_le (l : List α) (b : α) (h : ∀ e ∈ l, f e ≤ f b) :
    l.foldl (pick1 f) b = b := by
  induction l with
  | nil => rfl
  | cons x xs ih =>
      rw [List.foldl_cons, pick1_of_ge f b x (h x (List.mem_cons_self x xs))]
      exact ih (fun e he => h e (List.mem_cons_of_mem x he))

lemma foldl_pick1_init_irrel (l : List α) :
    ∀ b1 b2 : α, f b1 < f (l.foldl (pick1 f) b1) → f b2 < f (l.foldl (pick1 f) b1) →
      l.foldl (pick1 f) b2 = l.foldl (pick1 f) b1 := by
  induction l with
  | nil => intro b1 b2 h1 _; exact absurd h1 (lt_irrefl _)
  | cons x xs ih =>
      intro b1 b2 h1 h2
      simp only [List.foldl_cons] at h1 h2 ⊢
      by_cases hx1 : f b1 < f x
      · rw [pick1_of_lt f b1 x hx1] at h1 h2 ⊢
        by_cases hx2 : f b2 < f x
        · rw [pick1_of_lt f b2 x hx2]
        · rw [pick1_of_ge f b2 x (le_of_not_lt hx2)]
          exact ih x b2 (lt_of_le_of_lt (le_of_not_lt hx2) h2) h2
      · rw [pick1_of_ge f b1 x (le_of_not_lt hx1)] at h1 h2 ⊢
        by_cases hx2 : f b2 < f x
        · rw [pick1_of_lt f b2 x hx2]
          exact ih b1 x h1 (lt_of_le_of_lt (le_of_not_lt hx1) h1)
        · rw [pick1_of_ge f b2 x (le_of_not_lt hx2)]
          exact ih b1 b2 h1 h2

lemma foldl_updOpt_middle (pre post : List α) (w : α)
    (hpre : ∀ e ∈ pre, f e < f w) (hpost : ∀ e ∈ post, f e ≤ f w) :
    (pre ++ w :: post).foldl (updOpt f) none = some w := by
  cases pre with
  | nil =>
      simp only [List.nil_append, List.foldl_cons]
      have h0 : updOpt f none w = some w := rfl
      rw [h0, foldl_updOpt_some, foldl_pick1_of_le f post w hpost]
  | cons p ps =>
      simp only [List.cons_append, List.foldl_cons]
      have h0 : updOpt f none p = some p := rfl
      rw [h0, foldl_updOpt_some, List.foldl_append]
      have hb : f (ps.foldl (pick1 f) p) < f w := by
        rcases foldl_pick1_mem f ps p with h | h
        · rw [h]; exact hpre p (List.mem_cons_self p ps)
        · exact hpre _ (List.mem_cons_of_mem p h)
      simp only [List.foldl_cons]
      rw [pick1_of_lt f _ w hb, foldl_pick1_of_le f post w hpost]

lemma insertDesc_cons (c x : α) (xs : List α) :
    insertDesc f c (x :: xs) =
      if f c ≥ f x then c :: x :: xs else x :: insertDesc f c xs := rfl

lemma mem_insertDesc (c : α) (l : List α) (x : α) (h : x ∈ insertDesc f c l) :
    x = c ∨ x ∈ l := by
  induction l with
  | nil =>
      simp only [insertDesc, List.mem_singleton] at h
      exact Or.inl h
  | cons y ys ih =>
      simp only [insertDesc] at h
      split at h
      · rcases List.mem_cons.mp h with rfl | h2
        · exact Or.inl rfl
        · exact Or.inr h2
      · rcases List.mem_cons.mp h with rfl | h2
        · exact Or.inr (List.mem_cons_self _ _)
        · rcases ih h2 with h3 | h3
          · exact Or.inl h3
          · exact Or.inr (List.mem_cons_of_mem _ h3)

lemma mem_sortDesc (l : List α) (x : α) (h : x ∈ sortDesc f l) : x ∈ l := by
  induction l with
  | nil => exact absurd h (List.not_mem_nil x)
  | cons c cs ih =>
      simp only [sortDesc] at h
      rcases mem_insertDesc f c (sortDesc f cs) x h with rfl | h2
      · exact List.mem_cons_self _ _
      · exact List.mem_cons_of_mem _ (ih h2)

lemma sortDesc_cons_head (l : List α) :
    ∀ c : α, ∃ t, sortDesc f (c :: l) = (l.foldl (pick1 f) c) :: t := by
  induction l with
  | nil => intro c; exact ⟨[], rfl⟩
  | cons x xs ih =>
      intro c
      obtain ⟨tx, htx⟩ := ih x
      have hw : sortDesc f (c :: x :: xs) = insertDesc f c (sortDesc f (x :: xs)) := rfl
      rw [hw, htx]
      set w := xs.foldl (pick1 f) x with hwdef
      by_cases hc : f c ≥ f w
      · have e1 : insertDesc f c (w :: tx) = c :: w :: tx := by
          unfold insertDesc; rw [if_pos hc]
        have hxw : f x ≤ f w := le_foldl_pick1 f xs x
        have hfold : (x :: xs).foldl (pick1 f) c = c := by
          rw [List.foldl_cons, pick1_of_ge f c x (le_trans hxw hc)]
          exact foldl_pick1_of_le f xs c
            (fun e he => le_trans (mem_le_foldl_pick1 f xs x e he) hc)
        rw [e1, hfold]
        exact ⟨w :: tx, rfl⟩
      · push_neg at hc
        have e1 : insertDesc f c (w :: tx) = w :: insertDesc f c tx := by
          rw [insertDesc_cons, if_neg (not_le.mpr hc)]
        rw [e1]
        have hfold : (x :: xs).foldl (pick1 f) c = w := by
          rw [List.foldl_cons]
          by_cases hx : f c < f x
          · rw [pick1_of_lt f c x hx]
          · rw [pick1_of_ge f c x (le_of_not_lt hx)]
            exact foldl_pick1_init_irrel f xs x c
              (lt_of_le_of_lt (le_of_not_lt hx) hc) hc
        rw [hfold]
        exact ⟨insertDesc f c tx, rfl⟩

lemma foldl_pick1_map {β : Type} (g : β → ℝ) (m : α → β)
    (hm : ∀ a, g (m a) = f a) (l : List α) (b : α) :
    (l.map m).foldl (pick1 g) (m b) = m (l.foldl (pick1 f) b) := by
  induction l generalizing b with
  | nil => rfl
  | cons x xs ih =>
      simp only [List.map_cons, List.foldl_cons]
      have hp : pick1 g (m b) (m x) = m (pick1 f b x) := by
        unfold pick1
        rw [hm, hm]
        by_cases h : f x > f b
        · rw [if_pos h, if_pos h]
        · rw [if_neg h, if_neg h]
      rw [hp, ih]

end ArgmaxLemmas


section Bridges

/-- An `updateBest` step is an `updOpt` step on the packaged entry. -/
lemma updateBest_eq (b : Option BestAcc) (t : ℕ) (m : Mode) (s : ℝ) :
    updateBest b t m s = updOpt (fun e => e.score) b ⟨t, m, s⟩ := by
  cases b <;> rfl

/-- The best-candidate loop is the strict-improvement fold over the 24 entries. -/
lemma bestLoop_eq (h : List ℝ) :
    bestLoop h = (scoreEntries h).foldl (updOpt (fun e => e.score)) none := by
  simp only [bestLoop, scoreEntries, List.range_succ, List.range_zero, List.foldl_append,
    List.foldl_cons, List.foldl_nil, List.nil_append, List.append_nil, updateBest_eq]

/-- The ranking loop's candidate list is the entry list viewed as candidates. -/
lemma candidateLoop_eq (h : List ℝ) :
    candidateLoop h = (scoreEntries h).map toCand := by
  simp only [candidateLoop, scoreEntries, List.range_succ, List.range_zero, List.foldl_append,
    List.foldl_cons, List.foldl_nil, List.nil_append, List.append_nil, List.map_append,
    List.map_cons, List.map_nil, toCand]

/-- The independent score list is the score projection of the entry list. -/
lemma allScores_eq (h : List ℝ) :
    allScores h = (scoreEntries h).map (fun e => e.score) := by
  simp only [allScores, scoreEntries, List.range_succ, List.range_zero, List.foldr_cons,
    List.foldr_nil, List.foldl_append, List.foldl_cons, List.foldl_nil, List.nil_append,
    List.append_nil, List.map_append, List.map_cons, List.map_nil, List.cons_append,
    List.singleton_append]

/-- There are 24 entries. -/
lemma scoreEntries_len (h : List ℝ) : (scoreEntries h).length = 24 := by
  simp only [scoreEntries, List.range_succ, List.range_zero, List.foldl_append,
    List.foldl_cons, List.foldl_nil, List.nil_append, List.append_nil, List.length_append,
    List.length_cons, List.length_nil]

end Bridges


/-- Plain left-rotation by a count `k ≤ len`; `rotate` always reduces to this. -/
def rotNat {α : Type} (arr : List α) (k : ℕ) : List α :=
  arr.drop k ++ arr.take k

lemma rotate_eq_rotNat {α : Type} (arr : List α) (n : ℤ) :
    rotate arr n = rotNat arr ((n % (arr.length : ℤ)).toNat) := by
  have hmod : (n % (arr.length : ℤ) + arr.length) % (arr.length : ℤ)
      = n % (arr.length : ℤ) := by
    have h1 : n % (arr.length : ℤ) + arr.length
        = n % (arr.length : ℤ) + (arr.length : ℤ) * 1 := by ring
    rw [h1, Int.add_mul_emod_self_left, Int.emod_emod_of_dvd n dvd_rfl]
  simp only [rotate, rotNat]
  rw [hmod]

lemma rotNat_length {α : Type} (a : List α) (k : ℕ) : (rotNat a k).length = a.length := by
  unfold rotNat
  rw [List.length_append, List.length_drop, List.length_take]
  omega

lemma rotNat_zero {α : Type} (a : List α) : rotNat a 0 = a := by
  unfold rotNat
  simp

lemma rotNat_cancel {α : Type} (a : List α) (k : ℕ) :
    rotNat (rotNat a k) (a.length - k) = a := by
  unfold rotNat
  have hd : (a.drop k).length = a.length - k := List.length_drop k a
  rw [← hd]
  rw [List.drop_left, List.take_left]
  exact List.take_append_drop k a

lemma sum_rotNat (a : List ℝ) (k : ℕ) : (rotNat a k).sum = a.sum := by
  unfold rotNat
  rw [List.sum_append, add_comm, ← List.sum_append, List.take_append_drop]

lemma mean_rotNat (a : List ℝ) (k : ℕ) : mean (rotNat a k) = mean a := by
  unfold mean
  rw [sum_rotNat, rotNat_length]

lemma map_rotNat {α β : Type} (g : α → β) (a : List α) (k : ℕ) :
    (rotNat a k).map g = rotNat (a.map g) k := by
  unfold rotNat
  rw [List.map_append, List.map_drop, List.map_take]

lemma dot_rotNat (a b : List ℝ) (hab : a.length = b.length) (k : ℕ) :
    dot (rotNat a k) (rotNat b k) = dot a b := by
  unfold dot rotNat
  rw [List.zipWith_append _ _ _ _ _ (by rw [List.length_drop, List.length_drop, hab])]
  rw [← List.drop_zipWith, ← List.take_zipWith]
  rw [List.sum_append, add_comm, ← List.sum_append, List.take_append_drop]

lemma centered_rotNat (a : List ℝ) (k : ℕ) :
    centered (rotNat a k) = rotNat (centered a) k := by
  unfold centered
  rw [mean_rotNat, map_rotNat]

lemma corr_rotNat (a b : List ℝ) (hab : a.length = b.length) (k : ℕ) :
    corr (rotNat a k) (rotNat b k) = corr a b := by
  simp only [corr, norm]
  rw [centered_rotNat, centered_rotNat]
  have hc : (centered a).length = (centered b).length := by
    unfold centered; rw [List.length_map, List.length_map, hab]
  rw [dot_rotNat _ _ hc, dot_rotNat _ _ rfl, dot_rotNat _ _ rfl]


/-- Claim C4: for every 12-element histogram `h` and every integer `n`, the
Pearson correlation of `h` against the major profile rotated by `n` equals the
Pearson correlation of `h` rotated by `-n` against the unrotated major profile. -/
theorem corr_rotate_shift_invariant (h : List ℝ) (hlen : h.length = 12) (n : ℤ) :
    corr h (rotate MAJOR_PROFILE n) = corr (rotate h (-n)) MAJOR_PROFILE := by
  rw [rotate_eq_rotNat MAJOR_PROFILE n, rotate_eq_rotNat h (-n)]
  have hMl : MAJOR_PROFILE.length = 12 := rfl
  rw [hMl, hlen]
  have hcast : ((12:ℕ):ℤ) = (12:ℤ) := by norm_num
  rw [hcast]
  set k1 := (n % (12:ℤ)).toNat with hk1
  set k2 := ((-n) % (12:ℤ)).toNat with hk2
  have hlen2 : (rotNat h k2).length = 12 := by rw [rotNat_length, hlen]
  have step : corr (rotNat (rotNat h k2) k1) (rotNat MAJOR_PROFILE k1)
      = corr (rotNat h k2) MAJOR_PROFILE :=
    corr_rotNat _ _ (by rw [hlen2, hMl]) k1
  rw [← step]
  congr 1
  by_cases hz : n % (12:ℤ) = 0
  · have hz1 : k1 = 0 := by omega
    have hz2 : k2 = 0 := by omega
    rw [hz1, hz2, rotNat_zero, rotNat_zero]
  · have hk12 : k1 = 12 - k2 := by omega
    have hcancel := rotNat_cancel h k2
    rw [hlen] at hcancel
    rw [hk12]
    exact hcancel.symm

/-- Witness for C4 at a concrete histogram and shift. -/
theorem corr_rotate_shift_invariant_witness :
    ([10, 0, 0, 0, 6, 0, 0, 7, 0, 0, 0, 0] : List ℝ).length = 12 ∧
      corr [10, 0, 0, 0, 6, 0, 0, 7, 0, 0, 0, 0] (rotate MAJOR_PROFILE 5)
        = corr (rotate [10, 0, 0, 0, 6, 0, 0, 7, 0, 0, 0, 0] (-5)) MAJOR_PROFILE :=
  ⟨rfl, corr_rotate_shift_invariant [10, 0, 0, 0, 6, 0, 0, 7, 0, 0, 0, 0] rfl 5⟩


section Characterization

lemma detect_error_of_len (hist : List ℝ) (h12 : hist.length ≠ 12) :
    detectKeyFromPitchClassHistogram hist
      = .error "Pitch class histogram must have length 12" := by
  simp only [detectKeyFromPitchClassHistogram]
  rw [if_pos h12]

lemma rank_error_of_len (hist : List ℝ) (h12 : hist.length ≠ 12) :
    rankKeyCandidatesFromPitchClassHistogram hist
      = .error "Pitch class histogram must have length 12" := by
  simp only [rankKeyCandidatesFromPitchClassHistogram]
  rw [if_pos h12]

lemma detect_none_of_max (hist : List ℝ) (h12 : hist.length = 12)
    (hmax : listMax (normalizeHistogram hist) ≤ 0) :
    detectKeyFromPitchClassHistogram hist = .ok none := by
  simp only [detectKeyFromPitchClassHistogram]
  rw [if_neg (not_not_intro h12), if_pos hmax]

lemma rank_nil_of_max (hist : List ℝ) (h12 : hist.length = 12)
    (hmax : listMax (normalizeHistogram hist) ≤ 0) :
    rankKeyCandidatesFromPitchClassHistogram hist = .ok [] := by
  simp only [rankKeyCandidatesFromPitchClassHistogram]
  rw [if_neg (not_not_intro h12), if_pos hmax]

lemma detect_some (hist : List ℝ) (h12 : hist.length = 12)
    (hmax : ¬ listMax (normalizeHistogram hist) ≤ 0) (b : BestAcc)
    (hb : bestLoop (normalizeHistogram hist) = some b) :
    detectKeyFromPitchClassHistogram hist
      = .ok (some ⟨TONICS_SHARP.getD b.tonicIndex "", b.mode,
          max 0 (min 1 ((b.score + 1) / 2)), normalizeHistogram hist⟩) := by
  simp only [detectKeyFromPitchClassHistogram]
  rw [if_neg (not_not_intro h12), if_neg hmax, hb]

lemma rank_sort (hist : List ℝ) (h12 : hist.length = 12)
    (hmax : ¬ listMax (normalizeHistogram hist) ≤ 0) :
    rankKeyCandidatesFromPitchClassHistogram hist
      = .ok (sortDesc (fun c => c.score) (candidateLoop (normalizeHistogram hist))) := by
  simp only [rankKeyCandidatesFromPitchClassHistogram]
  rw [if_neg (not_not_intro h12), if_neg hmax]

lemma scoreEntries_shape (h : List ℝ) : ∃ e0 rest, scoreEntries h = e0 :: rest := by
  cases hs : scoreEntries h with
  | nil =>
      have hl := scoreEntries_len h
      rw [hs] at hl
      exact absurd hl (by norm_num)
  | cons a l => exact ⟨a, l, rfl⟩

lemma bestLoop_isSome (h : List ℝ) : ∃ b : BestAcc, bestLoop h = some b := by
  obtain ⟨e0, rest, hshape⟩ := scoreEntries_shape h
  refine ⟨rest.foldl (pick1 (fun e => e.score)) e0, ?_⟩
  rw [bestLoop_eq, hshape, List.foldl_cons]
  have h0 : updOpt (fun e : BestAcc => e.score) none e0 = some e0 := rfl
  rw [h0, foldl_updOpt_some]

lemma detect_ok_some_inv (hist : List ℝ) (r : KeyDetectionResult)
    (h : detectKeyFromPitchClassHistogram hist = .ok (some r)) :
    ∃ b, bestLoop (normalizeHistogram hist) = some b ∧
      r = ⟨TONICS_SHARP.getD b.tonicIndex "", b.mode,
        max 0 (min 1 ((b.score + 1) / 2)), normalizeHistogram hist⟩ := by
  by_cases h12 : hist.length = 12
  · by_cases hmax : listMax (normalizeHistogram hist) ≤ 0
    · rw [detect_none_of_max hist h12 hmax] at h
      exact absurd h (by simp)
    · obtain ⟨b, hb⟩ := bestLoop_isSome (normalizeHistogram hist)
      rw [detect_some hist h12 hmax b hb] at h
      simp only [Except.ok.injEq, Option.some.injEq] at h
      exact ⟨b, hb, h.symm⟩
  · rw [detect_error_of_len hist h12] at h
    exact absurd h (by simp)

end Characterization


/-- The all-ones histogram (used as a flat, signal-free but positive input). -/
def onesHist : List ℝ := [1, 1, 1, 1, 1, 1, 1, 1, 1, 1, 1, 1]

section EasyClaims

/-- Claim C6: for every input list whose length is not 12, both
`detectKeyFromPitchClassHistogram` and `rankKeyCandidatesFromPitchClassHistogram`
fail immediately with the length error (the embedded `throw`), and in particular
never truncate or pad the input. -/
theorem shape_violation_throws (hist : List ℝ) (h : hist.length ≠ 12) :
    detectKeyFromPitchClassHistogram hist
        = .error "Pitch class histogram must have length 12" ∧
      rankKeyCandidatesFromPitchClassHistogram hist
        = .error "Pitch class histogram must have length 12" :=
  ⟨detect_error_of_len hist h, rank_error_of_len hist h⟩

/-- Witness for C6 at the concrete length-3 input `[1, 2, 3]`. -/
theorem shape_violation_throws_witness :
    ([1, 2, 3] : List ℝ).length ≠ 12 ∧
      (detectKeyFromPitchClassHistogram [1, 2, 3]
          = .error "Pitch class histogram must have length 12" ∧
        rankKeyCandidatesFromPitchClassHistogram [1, 2, 3]
          = .error "Pitch class histogram must have length 12") :=
  ⟨by norm_num, shape_violation_throws [1, 2, 3] (by norm_num)⟩

lemma foldl_max_zeros (xs : List ℝ) :
    (xs.map (fun _ => (0:ℝ))).foldl max 0 = 0 := by
  induction xs with
  | nil => rfl
  | cons x xs ih =>
      simp only [List.map_cons, List.foldl_cons, max_self]
      exact ih

lemma listMax_map_zero (l : List ℝ) (hne : l ≠ []) :
    listMax (l.map (fun _ => (0:ℝ))) = 0 := by
  cases l with
  | nil => exact absurd rfl hne
  | cons x xs =>
      simp only [List.map_cons, listMax]
      exact foldl_max_zeros xs

lemma normalize_of_nonpos (hist : List ℝ) (hsum : hist.sum ≤ 0) :
    normalizeHistogram hist = hist.map (fun _ => 0) := by
  simp only [normalizeHistogram]
  rw [if_pos hsum]

/-- Claim C5: for every 12-element histogram whose bins sum to at most 0
(in particular the all-zero histogram), `detectKeyFromPitchClassHistogram`
returns `null` and `rankKeyCandidatesFromPitchClassHistogram` returns the empty
list, and neither throws, so "no signal" is distinguishable from a failure. -/
theorem no_signal_returns_empty (hist : List ℝ) (hlen : hist.length = 12)
    (hsum : hist.sum ≤ 0) :
    detectKeyFromPitchClassHistogram hist = .ok none ∧
      rankKeyCandidatesFromPitchClassHistogram hist = .ok [] := by
  have hne : hist ≠ [] := by
    intro hnil
    rw [hnil] at hlen
    exact absurd hlen (by norm_num)
  have hmax : listMax (normalizeHistogram hist) ≤ 0 := by
    rw [normalize_of_nonpos hist hsum, listMax_map_zero hist hne]
  exact ⟨detect_none_of_max hist hlen hmax, rank_nil_of_max hist hlen hmax⟩

/-- Witness for C5 at the all-zero histogram. -/
theorem no_signal_returns_empty_witness :
    ([0, 0, 0, 0, 0, 0, 0, 0, 0, 0, 0, 0] : List ℝ).length = 12 ∧
      ([0, 0, 0, 0, 0, 0, 0, 0, 0, 0, 0, 0] : List ℝ).sum ≤ 0 ∧
      (detectKeyFromPitchClassHistogram [0, 0, 0, 0, 0, 0, 0, 0, 0, 0, 0, 0] = .ok none ∧
        rankKeyCandidatesFromPitchClassHistogram [0, 0, 0, 0, 0, 0, 0, 0, 0, 0, 0, 0] = .ok []) :=
  ⟨rfl, by norm_num,
    no_signal_returns_empty [0, 0, 0, 0, 0, 0, 0, 0, 0, 0, 0, 0] rfl (by norm_num)⟩

lemma corr_eq_zero_of_centered_norm_zero (a b : List ℝ)
    (h : norm (centered a) = 0 ∨ norm (centered b) = 0) : corr a b = 0 := by
  simp only [corr]
  rcases h with h | h
  · rw [h, zero_mul, if_pos rfl]
  · rw [h, mul_zero, if_pos rfl]

/-- Claim C9: whenever either vector's mean-centered norm is zero, `corr`
returns exactly 0 (the guarded fallback), so every tonic/mode pair receives a
defined score. -/
theorem corr_zero_centered_norm (a b : List ℝ) (a12 : a.length = 12)
    (b12 : b.length = 12) (h : norm (centered a) = 0 ∨ norm (centered b) = 0) :
    corr a b = 0 :=
  corr_eq_zero_of_centered_norm_zero a b h

lemma norm_centered_ones : norm (centered onesHist) = 0 := by
  have hc : centered onesHist = [0, 0, 0, 0, 0, 0, 0, 0, 0, 0, 0, 0] := by
    norm_num [centered, onesHist, mean]
  rw [norm, hc]
  norm_num [dot]

/-- Witness for C9: the constant all-ones vector against the major profile. -/
theorem corr_zero_centered_norm_witness :
    onesHist.length = 12 ∧ MAJOR_PROFILE.length = 12 ∧
      (norm (centered onesHist) = 0 ∨ norm (centered MAJOR_PROFILE) = 0) ∧
      corr onesHist MAJOR_PROFILE = 0 :=
  ⟨rfl, rfl, Or.inl norm_centered_ones,
    corr_zero_centered_norm onesHist MAJOR_PROFILE rfl rfl (Or.inl norm_centered_ones)⟩

/-- Claim C7: every non-null detection result's confidence equals
`clamp((bestScore + 1) / 2, 0, 1)`; it always lies in `[0, 1]`; the clamp maps
score 1 to 1, score 0 to 1/2, and score -1 to 0; and confidence is monotone in
the winning score across histograms. -/
theorem confidence_spec (hist : List ℝ) (r : KeyDetectionResult)
    (h : detectKeyFromPitchClassHistogram hist = .ok (some r)) :
    (∃ b, bestLoop (normalizeHistogram hist) = some b ∧
        r.confidence = max 0 (min 1 ((b.score + 1) / 2))) ∧
      0 ≤ r.confidence ∧ r.confidence ≤ 1 ∧
      (max 0 (min 1 (((1:ℝ) + 1) / 2)) = 1 ∧
        max 0 (min 1 (((0:ℝ) + 1) / 2)) = 1 / 2 ∧
        max 0 (min 1 ((((-1):ℝ) + 1) / 2)) = 0) ∧
      (∀ (hist2 : List ℝ) (r2 : KeyDetectionResult) (b b2 : BestAcc),
        detectKeyFromPitchClassHistogram hist2 = .ok (some r2) →
        bestLoop (normalizeHistogram hist) = some b →
        bestLoop (normalizeHistogram hist2) = some b2 →
        b2.score < b.score → r2.confidence ≤ r.confidence) := by
  obtain ⟨b0, hb0, hr⟩ := detect_ok_some_inv hist r h
  have hconf : r.confidence = max 0 (min 1 ((b0.score + 1) / 2)) := by rw [hr]
  refine ⟨⟨b0, hb0, hconf⟩, ?_, ?_, ⟨by norm_num, by norm_num, by norm_num⟩, ?_⟩
  · rw [hconf]
    exact le_max_left 0 _
  · rw [hconf]
    exact max_le (by norm_num) (min_le_left 1 _)
  · intro hist2 r2 b b2 h2 hb hb2 hlt
    have hbb : b = b0 := by
      rw [hb0] at hb
      exact (Option.some.inj hb).symm
    obtain ⟨b2x, hb2x, hr2⟩ := detect_ok_some_inv hist2 r2 h2
    have hbb2 : b2x = b2 := by
      rw [hb2x] at hb2
      exact Option.some.inj hb2
    have hconf2 : r2.confidence = max 0 (min 1 ((b2.score + 1) / 2)) := by
      rw [hr2, hbb2]
    rw [hconf, hconf2, ← hbb]
    exact max_le_max le_rfl (min_le_min le_rfl (by linarith))

lemma sum_map_mul (c : ℝ) (l : List ℝ) :
    (l.map (fun x => c * x)).sum = c * l.sum := by
  induction l with
  | nil => simp
  | cons x xs ih =>
      simp only [List.map_cons, List.sum_cons, ih]
      ring

lemma normalize_scale (hist : List ℝ) (hsum : 0 < hist.sum) (c : ℝ) (hc : 0 < c) :
    normalizeHistogram (hist.map (fun x => c * x)) = normalizeHistogram hist := by
  simp only [normalizeHistogram, sum_map_mul]
  rw [if_neg (not_le.mpr (mul_pos hc hsum)), if_neg (not_le.mpr hsum), List.map_map]
  congr 1
  funext x
  show c * x / (c * hist.sum) = x / hist.sum
  exact mul_div_mul_left x hist.sum (ne_of_gt hc)

lemma detect_eq_of_norm_eq (h1 h2 : List ℝ) (l1 : h1.length = 12)
    (l2 : h2.length = 12) (hn : normalizeHistogram h1 = normalizeHistogram h2) :
    detectKeyFromPitchClassHistogram h1 = detectKeyFromPitchClassHistogram h2 := by
  simp only [detectKeyFromPitchClassHistogram]
  rw [if_neg (not_not_intro l1), if_neg (not_not_intro l2), hn]

lemma rank_eq_of_norm_eq (h1 h2 : List ℝ) (l1 : h1.length = 12)
    (l2 : h2.length = 12) (hn : normalizeHistogram h1 = normalizeHistogram h2) :
    rankKeyCandidatesFromPitchClassHistogram h1
      = rankKeyCandidatesFromPitchClassHistogram h2 := by
  simp only [rankKeyCandidatesFromPitchClassHistogram]
  rw [if_neg (not_not_intro l1), if_neg (not_not_intro l2), hn]

/-- Claim C10: both entry points normalize internally, so scaling a histogram of
positive sum by any `c > 0` changes neither the detection result (tonic, mode,
confidence and profile all included) nor the ranked candidate list. -/
theorem scaling_invariant (hist : List ℝ) (hlen : hist.length = 12)
    (hsum : 0 < hist.sum) (c : ℝ) (hc : 0 < c) :
    detectKeyFromPitchClassHistogram (hist.map (fun x => c * x))
        = detectKeyFromPitchClassHistogram hist ∧
      rankKeyCandidatesFromPitchClassHistogram (hist.map (fun x => c * x))
        = rankKeyCandidatesFromPitchClassHistogram hist := by
  have hlen2 : (hist.map (fun x => c * x)).length = 12 := by
    rw [List.length_map]
    exact hlen
  have hn := normalize_scale hist hsum c hc
  exact ⟨detect_eq_of_norm_eq _ _ hlen2 hlen hn, rank_eq_of_norm_eq _ _ hlen2 hlen hn⟩

/-- Witness for C10 at the C-major triad histogram scaled by 2. -/
theorem scaling_invariant_witness :
    ([10, 0, 0, 0, 6, 0, 0, 7, 0, 0, 0, 0] : List ℝ).length = 12 ∧
      (0:ℝ) < ([10, 0, 0, 0, 6, 0, 0, 7, 0, 0, 0, 0] : List ℝ).sum ∧ (0:ℝ) < 2 ∧
      (detectKeyFromPitchClassHistogram
            (([10, 0, 0, 0, 6, 0, 0, 7, 0, 0, 0, 0] : List ℝ).map (fun x => 2 * x))
          = detectKeyFromPitchClassHistogram [10, 0, 0, 0, 6, 0, 0, 7, 0, 0, 0, 0] ∧
        rankKeyCandidatesFromPitchClassHistogram
            (([10, 0, 0, 0, 6, 0, 0, 7, 0, 0, 0, 0] : List ℝ).map (fun x => 2 * x))
          = rankKeyCandidatesFromPitchClassHistogram [10, 0, 0, 0, 6, 0, 0, 7, 0, 0, 0, 0]) :=
  ⟨rfl, by norm_num, by norm_num,
    scaling_invariant [10, 0, 0, 0, 6, 0, 0, 7, 0, 0, 0, 0] rfl (by norm_num) 2 (by norm_num)⟩

end EasyClaims


section Claim1

lemma le_foldl_max_init (l : List ℝ) (b : ℝ) : b ≤ l.foldl max b := by
  induction l generalizing b with
  | nil => exact le_rfl
  | cons x xs ih => exact le_trans (le_max_left b x) (ih (max b x))

lemma le_foldl_max_mem (l : List ℝ) (b : ℝ) : ∀ x ∈ l, x ≤ l.foldl max b := by
  induction l generalizing b with
  | nil => intro x hx; exact absurd hx (List.not_mem_nil x)
  | cons y ys ih =>
      intro x hx
      rcases List.mem_cons.mp hx with rfl | hmem
      · exact le_trans (le_max_right b x) (le_foldl_max_init ys (max b x))
      · exact ih (max b y) x hmem

lemma le_listMax (l : List ℝ) (x : ℝ) (hx : x ∈ l) : x ≤ listMax l := by
  cases l with
  | nil => exact absurd hx (List.not_mem_nil x)
  | cons y ys =>
      rcases List.mem_cons.mp hx with rfl | hmem
      · exact le_foldl_max_init ys x
      · exact le_foldl_max_mem ys y x hmem

lemma exists_pos_of_sum_pos (l : List ℝ) (h : 0 < l.sum) : ∃ x ∈ l, 0 < x := by
  induction l with
  | nil => rw [List.sum_nil] at h; exact absurd h (lt_irrefl 0)
  | cons a t ih =>
      by_cases ha : 0 < a
      · exact ⟨a, List.mem_cons_self a t, ha⟩
      · rw [List.sum_cons] at h
        have ht : 0 < t.sum := by
          push_neg at ha
          linarith
        obtain ⟨x, hx, hxp⟩ := ih ht
        exact ⟨x, List.mem_cons_of_mem a hx, hxp⟩

lemma listMax_norm_pos (hist : List ℝ) (hnn : ∀ x ∈ hist, 0 ≤ x)
    (hsum : 0 < hist.sum) : ¬ listMax (normalizeHistogram hist) ≤ 0 := by
  obtain ⟨x, hx, hxp⟩ := exists_pos_of_sum_pos hist hsum
  have hnorm : normalizeHistogram hist = hist.map (fun y => y / hist.sum) := by
    simp only [normalizeHistogram]
    rw [if_neg (not_le.mpr hsum)]
  have hmem : x / hist.sum ∈ normalizeHistogram hist := by
    rw [hnorm]
    exact List.mem_map_of_mem _ hx
  have hpos : 0 < x / hist.sum := div_pos hxp hsum
  have := le_listMax _ _ hmem
  push_neg
  linarith

/-- Claim C1: for every 12-element histogram with non-negative bins and positive
sum, the first candidate returned by the ranking entry point has a score at
least every other candidate's score and carries the same tonic and mode as the
best-match result, and the best-match winner's score equals the maximum of the
24 rotated-profile Pearson correlations computed independently. -/
theorem best_and_rank_consistent (hist : List ℝ) (hlen : hist.length = 12)
    (hnn : ∀ x ∈ hist, 0 ≤ x) (hsum : 0 < hist.sum) :
    ∃ (r : KeyDetectionResult) (b : BestAcc) (c : KeyCandidate)
        (cs : List KeyCandidate),
      detectKeyFromPitchClassHistogram hist = .ok (some r) ∧
      rankKeyCandidatesFromPitchClassHistogram hist = .ok (c :: cs) ∧
      (∀ x ∈ cs, x.score ≤ c.score) ∧
      c.tonic = r.tonic ∧ c.mode = r.mode ∧
      bestLoop (normalizeHistogram hist) = some b ∧
      r.tonic = TONICS_SHARP.getD b.tonicIndex "" ∧ r.mode = b.mode ∧
      b.score ∈ allScores (normalizeHistogram hist) ∧
      (∀ s ∈ allScores (normalizeHistogram hist), s ≤ b.score) := by
  have hmax := listMax_norm_pos hist hnn hsum
  obtain ⟨e0, rest, hshape⟩ := scoreEntries_shape (normalizeHistogram hist)
  set f : BestAcc → ℝ := fun e => e.score with hf
  set b : BestAcc := rest.foldl (pick1 f) e0 with hbdef
  have hb : bestLoop (normalizeHistogram hist) = some b := by
    rw [bestLoop_eq, hshape, List.foldl_cons]
    have h0 : updOpt f none e0 = some e0 := rfl
    rw [h0, foldl_updOpt_some]
  have hbmem : b ∈ scoreEntries (normalizeHistogram hist) := by
    rw [hshape]
    rcases foldl_pick1_mem f rest e0 with hcase | hcase
    · rw [hbdef, hcase]
      exact List.mem_cons_self e0 rest
    · exact List.mem_cons_of_mem e0 hcase
  have hbmax : ∀ e ∈ scoreEntries (normalizeHistogram hist), f e ≤ f b := by
    intro e he
    rw [hshape] at he
    rcases List.mem_cons.mp he with rfl | hmem
    · exact le_foldl_pick1 f rest e
    · exact mem_le_foldl_pick1 f rest e0 e hmem
  have hdetect := detect_some hist hlen hmax b hb
  have hrank := rank_sort hist hlen hmax
  have hcand : candidateLoop (normalizeHistogram hist)
      = toCand e0 :: rest.map toCand := by
    rw [candidateLoop_eq, hshape, List.map_cons]
  set g : KeyCandidate → ℝ := fun c => c.score with hg
  obtain ⟨tl, htl⟩ := sortDesc_cons_head g (rest.map toCand) (toCand e0)
  have hhead : (rest.map toCand).foldl (pick1 g) (toCand e0) = toCand b := by
    rw [hbdef]
    exact foldl_pick1_map f g toCand (fun a => rfl) rest e0
  have hsorted : sortDesc g (candidateLoop (normalizeHistogram hist))
      = toCand b :: tl := by
    rw [hcand, htl, hhead]
  refine ⟨⟨TONICS_SHARP.getD b.tonicIndex "", b.mode,
      max 0 (min 1 ((b.score + 1) / 2)), normalizeHistogram hist⟩,
    b, toCand b, tl, hdetect, ?_, ?_, rfl, rfl, hb, rfl, rfl, ?_, ?_⟩
  · rw [hrank, hsorted]
  · intro x hx
    have hxsort : x ∈ sortDesc g (candidateLoop (normalizeHistogram hist)) := by
      rw [hsorted]
      exact List.mem_cons_of_mem _ hx
    have hxcand := mem_sortDesc g _ x hxsort
    rw [candidateLoop_eq] at hxcand
    obtain ⟨e, he, rfl⟩ := List.mem_map.mp hxcand
    exact hbmax e he
  · rw [allScores_eq]
    exact List.mem_map.mpr ⟨b, hbmem, rfl⟩
  · intro s hs
    rw [allScores_eq] at hs
    obtain ⟨e, he, rfl⟩ := List.mem_map.mp hs
    exact hbmax e he

/-- Witness for C1 at the C-major triad histogram. -/
theorem best_and_rank_consistent_witness :
    ([10, 0, 0, 0, 6, 0, 0, 7, 0, 0, 0, 0] : List ℝ).length = 12 ∧
      (∀ x ∈ ([10, 0, 0, 0, 6, 0, 0, 7, 0, 0, 0, 0] : List ℝ), 0 ≤ x) ∧
      (0:ℝ) < ([10, 0, 0, 0, 6, 0, 0, 7, 0, 0, 0, 0] : List ℝ).sum ∧
      (∃ (r : KeyDetectionResult) (b : BestAcc) (c : KeyCandidate)
          (cs : List KeyCandidate),
        detectKeyFromPitchClassHistogram [10, 0, 0, 0, 6, 0, 0, 7, 0, 0, 0, 0]
            = .ok (some r) ∧
        rankKeyCandidatesFromPitchClassHistogram [10, 0, 0, 0, 6, 0, 0, 7, 0, 0, 0, 0]
            = .ok (c :: cs) ∧
        (∀ x ∈ cs, x.score ≤ c.score) ∧
        c.tonic = r.tonic ∧ c.mode = r.mode ∧
        bestLoop (normalizeHistogram [10, 0, 0, 0, 6, 0, 0, 7, 0, 0, 0, 0]) = some b ∧
        r.tonic = TONICS_SHARP.getD b.tonicIndex "" ∧ r.mode = b.mode ∧
        b.score ∈ allScores (normalizeHistogram [10, 0, 0, 0, 6, 0, 0, 7, 0, 0, 0, 0]) ∧
        (∀ s ∈ allScores (normalizeHistogram [10, 0, 0, 0, 6, 0, 0, 7, 0, 0, 0, 0]),
          s ≤ b.score)) := by
  have h1 : ∀ x ∈ ([10, 0, 0, 0, 6, 0, 0, 7, 0, 0, 0, 0] : List ℝ), 0 ≤ x := by
    intro x hx
    fin_cases hx <;> norm_num
  have h2 : (0:ℝ) < ([10, 0, 0, 0, 6, 0, 0, 7, 0, 0, 0, 0] : List ℝ).sum := by
    norm_num
  exact ⟨rfl, h1, h2, best_and_rank_consistent _ rfl h1 h2⟩

end Claim1


section ScoreComparison

lemma corr_eq_div (a b : List ℝ) (hA : 0 < dot (centered a) (centered a))
    (hB : 0 < dot (centered b) (centered b)) :
    corr a b = dot (centered a) (centered b) /
      (Real.sqrt (dot (centered a) (centered a)) *
        Real.sqrt (dot (centered b) (centered b))) := by
  simp only [corr, norm]
  rw [if_neg]
  exact mul_ne_zero (ne_of_gt (Real.sqrt_pos.mpr hA)) (ne_of_gt (Real.sqrt_pos.mpr hB))

lemma div_sqrt_le_div_sqrt (A P Q Dp Dq : ℝ) (hA : 0 < A) (hP : 0 < P)
    (hQ : 0 < Q) (hDq : 0 ≤ Dq)
    (hcase : Dp ≤ 0 ∨ Dp ^ 2 * Q ≤ Dq ^ 2 * P) :
    Dp / (Real.sqrt A * Real.sqrt P) ≤ Dq / (Real.sqrt A * Real.sqrt Q) := by
  have sA : 0 < Real.sqrt A := Real.sqrt_pos.mpr hA
  have sP : 0 < Real.sqrt P := Real.sqrt_pos.mpr hP
  have sQ : 0 < Real.sqrt Q := Real.sqrt_pos.mpr hQ
  rw [div_le_div_iff (by positivity) (by positivity)]
  have hsq : Dp * Real.sqrt Q ≤ Dq * Real.sqrt P := by
    by_cases hDp : Dp ≤ 0
    · have h1 : Dp * Real.sqrt Q ≤ 0 := mul_nonpos_of_nonpos_of_nonneg hDp sQ.le
      have h2 : 0 ≤ Dq * Real.sqrt P := mul_nonneg hDq sP.le
      linarith
    · push_neg at hDp
      rcases hcase with h | h
      · linarith
      · have h1 : Real.sqrt (Dp ^ 2 * Q) ≤ Real.sqrt (Dq ^ 2 * P) :=
          Real.sqrt_le_sqrt h
        rwa [Real.sqrt_mul (by positivity), Real.sqrt_mul (by positivity),
          Real.sqrt_sq hDp.le, Real.sqrt_sq hDq] at h1
  calc Dp * (Real.sqrt A * Real.sqrt Q) = Real.sqrt A * (Dp * Real.sqrt Q) := by ring
    _ ≤ Real.sqrt A * (Dq * Real.sqrt P) :=
        mul_le_mul_of_nonneg_left hsq sA.le
    _ = Dq * (Real.sqrt A * Real.sqrt P) := by ring

lemma div_sqrt_lt_div_sqrt (A P Q Dp Dq : ℝ) (hA : 0 < A) (hP : 0 < P)
    (hQ : 0 < Q) (hDq : 0 < Dq)
    (hcase : Dp ≤ 0 ∨ Dp ^ 2 * Q < Dq ^ 2 * P) :
    Dp / (Real.sqrt A * Real.sqrt P) < Dq / (Real.sqrt A * Real.sqrt Q) := by
  have sA : 0 < Real.sqrt A := Real.sqrt_pos.mpr hA
  have sP : 0 < Real.sqrt P := Real.sqrt_pos.mpr hP
  have sQ : 0 < Real.sqrt Q := Real.sqrt_pos.mpr hQ
  rw [div_lt_div_iff (by positivity) (by positivity)]
  have hsq : Dp * Real.sqrt Q < Dq * Real.sqrt P := by
    by_cases hDp : Dp ≤ 0
    · have h1 : Dp * Real.sqrt Q ≤ 0 := mul_nonpos_of_nonpos_of_nonneg hDp sQ.le
      have h2 : 0 < Dq * Real.sqrt P := mul_pos hDq sP
      linarith
    · push_neg at hDp
      rcases hcase with h | h
      · linarith
      · have h1 : Real.sqrt (Dp ^ 2 * Q) < Real.sqrt (Dq ^ 2 * P) :=
          Real.sqrt_lt_sqrt (by positivity) h
        rwa [Real.sqrt_mul (by positivity), Real.sqrt_mul (by positivity),
          Real.sqrt_sq hDp.le, Real.sqrt_sq hDq.le] at h1
  calc Dp * (Real.sqrt A * Real.sqrt Q) = Real.sqrt A * (Dp * Real.sqrt Q) := by ring
    _ < Real.sqrt A * (Dq * Real.sqrt P) :=
        mul_lt_mul_of_pos_left hsq sA
    _ = Dq * (Real.sqrt A * Real.sqrt P) := by ring

lemma corr_le_corr (h p q : List ℝ)
    (hA : 0 < dot (centered h) (centered h))
    (hP : 0 < dot (centered p) (centered p))
    (hQ : 0 < dot (centered q) (centered q))
    (hDq : 0 ≤ dot (centered h) (centered q))
    (hcase : dot (centered h) (centered p) ≤ 0 ∨
      dot (centered h) (centered p) ^ 2 * dot (centered q) (centered q) ≤
        dot (centered h) (centered q) ^ 2 * dot (centered p) (centered p)) :
    corr h p ≤ corr h q := by
  rw [corr_eq_div h p hA hP, corr_eq_div h q hA hQ]
  exact div_sqrt_le_div_sqrt _ _ _ _ _ hA hP hQ hDq hcase

lemma corr_lt_corr (h p q : List ℝ)
    (hA : 0 < dot (centered h) (centered h))
    (hP : 0 < dot (centered p) (centered p))
    (hQ : 0 < dot (centered q) (centered q))
    (hDq : 0 < dot (centered h) (centered q))
    (hcase : dot (centered h) (centered p) ≤ 0 ∨
      dot (centered h) (centered p) ^ 2 * dot (centered q) (centered q) <
        dot (centered h) (centered q) ^ 2 * dot (centered p) (centered p)) :
    corr h p < corr h q := by
  rw [corr_eq_div h p hA hP, corr_eq_div h q hA hQ]
  exact div_sqrt_lt_div_sqrt _ _ _ _ _ hA hP hQ hDq hcase

lemma corr_pos (h q : List ℝ)
    (hA : 0 < dot (centered h) (centered h))
    (hQ : 0 < dot (centered q) (centered q))
    (hDq : 0 < dot (centered h) (centered q)) :
    0 < corr h q := by
  rw [corr_eq_div h q hA hQ]
  have sA : 0 < Real.sqrt (dot (centered h) (centered h)) := Real.sqrt_pos.mpr hA
  have sQ : 0 < Real.sqrt (dot (centered q) (centered q)) := Real.sqrt_pos.mpr hQ
  positivity

end ScoreComparison

section ConcreteEvaluations

lemma rotMaj0 : rotate MAJOR_PROFILE ((0:ℕ) : ℤ) = [6.35, 2.23, 3.48, 2.33, 4.38, 4.09, 2.52, 5.19, 2.39, 3.66, 2.29, 2.88] := rfl

lemma rotMaj1 : rotate MAJOR_PROFILE ((1:ℕ) : ℤ) = [2.23, 3.48, 2.33, 4.38, 4.09, 2.52, 5.19, 2.39, 3.66, 2.29, 2.88, 6.35] := rfl

lemma rotMaj2 : rotate MAJOR_PROFILE ((2:ℕ) : ℤ) = [3.48, 2.33, 4.38, 4.09, 2.52, 5.19, 2.39, 3.66, 2.29, 2.88, 6.35, 2.23] := rfl

lemma rotMaj3 : rotate MAJOR_PROFILE ((3:ℕ) : ℤ) = [2.33, 4.38, 4.09, 2.52, 5.19, 2.39, 3.66, 2.29, 2.88, 6.35, 2.23, 3.48] := rfl

lemma rotMaj4 : rotate MAJOR_PROFILE ((4:ℕ) : ℤ) = [4.38, 4.09, 2.52, 5.19, 2.39, 3.66, 2.29, 2.88, 6.35, 2.23, 3.48, 2.33] := rfl

lemma rotMaj5 : rotate MAJOR_PROFILE ((5:ℕ) : ℤ) = [4.09, 2.52, 5.19, 2.39, 3.66, 2.29, 2.88, 6.35, 2.23, 3.48, 2.33, 4.38] := rfl

lemma rotMaj6 : rotate MAJOR_PROFILE ((6:ℕ) : ℤ) = [2.52, 5.19, 2.39, 3.66, 2.29, 2.88, 6.35, 2.23, 3.48, 2.33, 4.38, 4.09] := rfl

lemma rotMaj7 : rotate MAJOR_PROFILE ((7:ℕ) : ℤ) = [5.19, 2.39, 3.66, 2.29, 2.88, 6.35, 2.23, 3.48, 2.33, 4.38, 4.09, 2.52] := rfl

lemma rotMaj8 : rotate MAJOR_PROFILE ((8:ℕ) : ℤ) = [2.39, 3.66, 2.29, 2.88, 6.35, 2.23, 3.48, 2.33, 4.38, 4.09, 2.52, 5.19] := rfl

lemma rotMaj9 : rotate MAJOR_PROFILE ((9:ℕ) : ℤ) = [3.66, 2.29, 2.88, 6.35, 2.23, 3.48, 2.33, 4.38, 4.09, 2.52, 5.19, 2.39] := rfl

lemma rotMaj10 : rotate MAJOR_PROFILE ((10:ℕ) : ℤ) = [2.29, 2.88, 6.35, 2.23, 3.48, 2.33, 4.38, 4.09, 2.52, 5.19, 2.39, 3.66] := rfl

lemma rotMaj11 : rotate MAJOR_PROFILE ((11:ℕ) : ℤ) = [2.88, 6.35, 2.23, 3.48, 2.33, 4.38, 4.09, 2.52, 5.19, 2.39, 3.66, 2.29] := rfl

lemma rotMin0 : rotate MINOR_PROFILE ((0:ℕ) : ℤ) = [6.33, 2.68, 3.52, 5.38, 2.60, 3.53, 2.54, 4.75, 3.98, 2.69, 3.34, 3.17] := rfl

lemma rotMin1 : rotate MINOR_PROFILE ((1:ℕ) : ℤ) = [2.68, 3.52, 5.38, 2.60, 3.53, 2.54, 4.75, 3.98, 2.69, 3.34, 3.17, 6.33] := rfl

lemma rotMin2 : rotate MINOR_PROFILE ((2:ℕ) : ℤ) = [3.52, 5.38, 2.60, 3.53, 2.54, 4.75, 3.98, 2.69, 3.34, 3.17, 6.33, 2.68] := rfl

lemma rotMin3 : rotate MINOR_PROFILE ((3:ℕ) : ℤ) = [5.38, 2.60, 3.53, 2.54, 4.75, 3.98, 2.69, 3.34, 3.17, 6.33, 2.68, 3.52] := rfl

lemma rotMin4 : rotate MINOR_PROFILE ((4:ℕ) : ℤ) = [2.60, 3.53, 2.54, 4.75, 3.98, 2.69, 3.34, 3.17, 6.33, 2.68, 3.52, 5.38] := rfl

lemma rotMin5 : rotate MINOR_PROFILE ((5:ℕ) : ℤ) = [3.53, 2.54, 4.75, 3.98, 2.69, 3.34, 3.17, 6.33, 2.68, 3.52, 5.38, 2.60] := rfl

lemma rotMin6 : rotate MINOR_PROFILE ((6:ℕ) : ℤ) = [2.54, 4.75, 3.98, 2.69, 3.34, 3.17, 6.33, 2.68, 3.52, 5.38, 2.60, 3.53] := rfl

lemma rotMin7 : rotate MINOR_PROFILE ((7:ℕ) : ℤ) = [4.75, 3.98, 2.69, 3.34, 3.17, 6.33, 2.68, 3.52, 5.38, 2.60, 3.53, 2.54] := rfl

lemma rotMin8 : rotate MINOR_PROFILE ((8:ℕ) : ℤ) = [3.98, 2.69, 3.34, 3.17, 6.33, 2.68, 3.52, 5.38, 2.60, 3.53, 2.54, 4.75] := rfl

lemma rotMin9 : rotate MINOR_PROFILE ((9:ℕ) : ℤ) = [2.69, 3.34, 3.17, 6.33, 2.68, 3.52, 5.38, 2.60, 3.53, 2.54, 4.75, 3.98] := rfl

lemma rotMin10 : rotate MINOR_PROFILE ((10:ℕ) : ℤ) = [3.34, 3.17, 6.33, 2.68, 3.52, 5.38, 2.60, 3.53, 2.54, 4.75, 3.98, 2.69] := rfl

lemma rotMin11 : rotate MINOR_PROFILE ((11:ℕ) : ℤ) = [3.17, 6.33, 2.68, 3.52, 5.38, 2.60, 3.53, 2.54, 4.75, 3.98, 2.69, 3.34] := rfl

/-- The normalized form of the C-major-triad histogram `[10,0,0,0,6,0,0,7,0,0,0,0]`. -/
def triadNorm : List ℝ := [10/23, 0, 0, 0, 6/23, 0, 0, 7/23, 0, 0, 0, 0]

/-- The histogram with all tonal energy in pitch class 9 (the note A),
as produced by a pure 440 Hz tone.  It is already normalized. -/
def oneHot9 : List ℝ := [0, 0, 0, 0, 0, 0, 0, 0, 0, 1, 0, 0]

/-- The normalized form of the all-ones histogram. -/
def onesNorm : List ℝ := [1/12, 1/12, 1/12, 1/12, 1/12, 1/12, 1/12, 1/12, 1/12, 1/12, 1/12, 1/12]

lemma normalize_triad : normalizeHistogram [10, 0, 0, 0, 6, 0, 0, 7, 0, 0, 0, 0] = triadNorm := by
  norm_num [normalizeHistogram, triadNorm]

lemma normalize_oneHot9 : normalizeHistogram [0, 0, 0, 0, 0, 0, 0, 0, 0, 1, 0, 0] = oneHot9 := by
  norm_num [normalizeHistogram, oneHot9]

lemma normalize_ones : normalizeHistogram onesHist = onesNorm := by
  norm_num [normalizeHistogram, onesHist, onesNorm]

lemma centTriad : centered triadNorm = [97/276, (-(1/12)), (-(1/12)), (-(1/12)), 49/276, (-(1/12)), (-(1/12)), 61/276, (-(1/12)), (-(1/12)), (-(1/12)), (-(1/12))] := by
  norm_num [centered, triadNorm, mean]

lemma centE9 : centered oneHot9 = [(-(1/12)), (-(1/12)), (-(1/12)), (-(1/12)), (-(1/12)), (-(1/12)), (-(1/12)), (-(1/12)), (-(1/12)), 11/12, (-(1/12)), (-(1/12))] := by
  norm_num [centered, oneHot9, mean]

lemma centMaj0 : centered (rotate MAJOR_PROFILE ((0:ℕ) : ℤ)) = [1147/400, (-(501/400)), (-(1/400)), (-(461/400)), 359/400, 243/400, (-(77/80)), 683/400, (-(437/400)), 71/400, (-(477/400)), (-(241/400))] := by
  rw [rotMaj0]
  norm_num [centered, mean]

lemma centMaj1 : centered (rotate MAJOR_PROFILE ((1:ℕ) : ℤ)) = [(-(501/400)), (-(1/400)), (-(461/400)), 359/400, 243/400, (-(77/80)), 683/400, (-(437/400)), 71/400, (-(477/400)), (-(241/400)), 1147/400] := by
  rw [rotMaj1]
  norm_num [centered, mean]

lemma centMaj2 : centered (rotate MAJOR_PROFILE ((2:ℕ) : ℤ)) = [(-(1/400)), (-(461/400)), 359/400, 243/400, (-(77/80)), 683/400, (-(437/400)), 71/400, (-(477/400)), (-(241/400)), 1147/400, (-(501/400))] := by
  rw [rotMaj2]
  norm_num [centered, mean]

lemma centMaj3 : centered (rotate MAJOR_PROFILE ((3:ℕ) : ℤ)) = [(-(461/400)), 359/400, 243/400, (-(77/80)), 683/400, (-(437/400)), 71/400, (-(477/400)), (-(241/400)), 1147/400, (-(501/400)), (-(1/400))] := by
  rw [rotMaj3]
  norm_num [centered, mean]

lemma centMaj4 : centered (rotate MAJOR_PROFILE ((4:ℕ) : ℤ)) = [359/400, 243/400, (-(77/80)), 683/400, (-(437/400)), 71/400, (-(477/400)), (-(241/400)), 1147/400, (-(501/400)), (-(1/400)), (-(461/400))] := by
  rw [rotMaj4]
  norm_num [centered, mean]

lemma centMaj5 : centered (rotate MAJOR_PROFILE ((5:ℕ) : ℤ)) = [243/400, (-(77/80)), 683/400, (-(437/400)), 71/400, (-(477/400)), (-(241/400)), 1147/400, (-(501/400)), (-(1/400)), (-(461/400)), 359/400] := by
  rw [rotMaj5]
  norm_num [centered, mean]

lemma centMaj6 : centered (rotate MAJOR_PROFILE ((6:ℕ) : ℤ)) = [(-(77/80)), 683/400, (-(437/400)), 71/400, (-(477/400)), (-(241/400)), 1147/400, (-(501/400)), (-(1/400)), (-(461/400)), 359/400, 243/400] := by
  rw [rotMaj6]
  norm_num [centered, mean]

lemma centMaj7 : centered (rotate MAJOR_PROFILE ((7:ℕ) : ℤ)) = [683/400, (-(437/400)), 71/400, (-(477/400)), (-(241/400)), 1147/400, (-(501/400)), (-(1/400)), (-(461/400)), 359/400, 243/400, (-(77/80))] := by
  rw [rotMaj7]
  norm_num [centered, mean]

lemma centMaj8 : centered (rotate MAJOR_PROFILE ((8:ℕ) : ℤ)) = [(-(437/400)), 71/400, (-(477/400)), (-(241/400)), 1147/400, (-(501/400)), (-(1/400)), (-(461/400)), 359/400, 243/400, (-(77/80)), 683/400] := by
  rw [rotMaj8]
  norm_num [centered, mean]

lemma centMaj9 : centered (rotate MAJOR_PROFILE ((9:ℕ) : ℤ)) = [71/400, (-(477/400)), (-(241/400)), 1147/400, (-(501/400)), (-(1/400)), (-(461/400)), 359/400, 243/400, (-(77/80)), 683/400, (-(437/400))] := by
  rw [rotMaj9]
  norm_num [centered, mean]

lemma centMaj10 : centered (rotate MAJOR_PROFILE ((10:ℕ) : ℤ)) = [(-(477/400)), (-(241/400)), 1147/400, (-(501/400)), (-(1/400)), (-(461/400)), 359/400, 243/400, (-(77/80)), 683/400, (-(437/400)), 71/400] := by
  rw [rotMaj10]
  norm_num [centered, mean]

lemma centMaj11 : centered (rotate MAJOR_PROFILE ((11:ℕ) : ℤ)) = [(-(241/400)), 1147/400, (-(501/400)), (-(1/400)), (-(461/400)), 359/400, 243/400, (-(77/80)), 683/400, (-(437/400)), 71/400, (-(477/400))] := by
  rw [rotMaj11]
  norm_num [centered, mean]

lemma centMin0 : centered (rotate MINOR_PROFILE ((0:ℕ) : ℤ)) = [629/240, (-(247/240)), (-(227/1200)), 401/240, (-(1331/1200)), (-(43/240)), (-(1403/1200)), 1249/1200, 13/48, (-(1223/1200)), (-(443/1200)), (-(647/1200))] := by
  rw [rotMin0]
  norm_num [centered, mean]

lemma centMin1 : centered (rotate MINOR_PROFILE ((1:ℕ) : ℤ)) = [(-(247/240)), (-(227/1200)), 401/240, (-(1331/1200)), (-(43/240)), (-(1403/1200)), 1249/1200, 13/48, (-(1223/1200)), (-(443/1200)), (-(647/1200)), 629/240] := by
  rw [rotMin1]
  norm_num [centered, mean]

lemma centMin2 : centered (rotate MINOR_PROFILE ((2:ℕ) : ℤ)) = [(-(227/1200)), 401/240, (-(1331/1200)), (-(43/240)), (-(1403/1200)), 1249/1200, 13/48, (-(1223/1200)), (-(443/1200)), (-(647/1200)), 629/240, (-(247/240))] := by
  rw [rotMin2]
  norm_num [centered, mean]

lemma centMin3 : centered (rotate MINOR_PROFILE ((3:ℕ) : ℤ)) = [401/240, (-(1331/1200)), (-(43/240)), (-(1403/1200)), 1249/1200, 13/48, (-(1223/1200)), (-(443/1200)), (-(647/1200)), 629/240, (-(247/240)), (-(227/1200))] := by
  rw [rotMin3]
  norm_num [centered, mean]

lemma centMin4 : centered (rotate MINOR_PROFILE ((4:ℕ) : ℤ)) = [(-(1331/1200)), (-(43/240)), (-(1403/1200)), 1249/1200, 13/48, (-(1223/1200)), (-(443/1200)), (-(647/1200)), 629/240, (-(247/240)), (-(227/1200)), 401/240] := by
  rw [rotMin4]
  norm_num [centered, mean]

lemma centMin5 : centered (rotate MINOR_PROFILE ((5:ℕ) : ℤ)) = [(-(43/240)), (-(1403/1200)), 1249/1200, 13/48, (-(1223/1200)), (-(443/1200)), (-(647/1200)), 629/240, (-(247/240)), (-(227/1200)), 401/240, (-(1331/1200))] := by
  rw [rotMin5]
  norm_num [centered, mean]

lemma centMin6 : centered (rotate MINOR_PROFILE ((6:ℕ) : ℤ)) = [(-(1403/1200)), 1249/1200, 13/48, (-(1223/1200)), (-(443/1200)), (-(647/1200)), 629/240, (-(247/240)), (-(227/1200)), 401/240, (-(1331/1200)), (-(43/240))] := by
  rw [rotMin6]
  norm_num [centered, mean]

lemma centMin7 : centered (rotate MINOR_PROFILE ((7:ℕ) : ℤ)) = [1249/1200, 13/48, (-(1223/1200)), (-(443/1200)), (-(647/1200)), 629/240, (-(247/240)), (-(227/1200)), 401/240, (-(1331/1200)), (-(43/240)), (-(1403/1200))] := by
  rw [rotMin7]
  norm_num [centered, mean]

lemma centMin8 : centered (rotate MINOR_PROFILE ((8:ℕ) : ℤ)) = [13/48, (-(1223/1200)), (-(443/1200)), (-(647/1200)), 629/240, (-(247/240)), (-(227/1200)), 401/240, (-(1331/1200)), (-(43/240)), (-(1403/1200)), 1249/1200] := by
  rw [rotMin8]
  norm_num [centered, mean]

lemma centMin9 : centered (rotate MINOR_PROFILE ((9:ℕ) : ℤ)) = [(-(1223/1200)), (-(443/1200)), (-(647/1200)), 629/240, (-(247/240)), (-(227/1200)), 401/240, (-(1331/1200)), (-(43/240)), (-(1403/1200)), 1249/1200, 13/48] := by
  rw [rotMin9]
  norm_num [centered, mean]

lemma centMin10 : centered (rotate MINOR_PROFILE ((10:ℕ) : ℤ)) = [(-(443/1200)), (-(647/1200)), 629/240, (-(247/240)), (-(227/1200)), 401/240, (-(1331/1200)), (-(43/240)), (-(1403/1200)), 1249/1200, 13/48, (-(1223/1200))] := by
  rw [rotMin10]
  norm_num [centered, mean]

lemma centMin11 : centered (rotate MINOR_PROFILE ((11:ℕ) : ℤ)) = [(-(647/1200)), 629/240, (-(247/240)), (-(227/1200)), 401/240, (-(1331/1200)), (-(43/240)), (-(1403/1200)), 1249/1200, 13/48, (-(1223/1200)), (-(443/1200))] := by
  rw [rotMin11]
  norm_num [centered, mean]

lemma dotA_triad : dot (centered triadNorm) (centered triadNorm) = 1691/6348 := by
  rw [centTriad]
  norm_num [dot]

lemma dotA_e9 : dot (centered oneHot9) (centered oneHot9) = 11/12 := by
  rw [centE9]
  norm_num [dot]

lemma dotQ_Maj0 : dot (centered (rotate MAJOR_PROFILE ((0:ℕ) : ℤ))) (centered (rotate MAJOR_PROFILE ((0:ℕ) : ℤ))) = 765849/40000 := by
  rw [centMaj0]
  norm_num [dot]

lemma dotQ_Maj1 : dot (centered (rotate MAJOR_PROFILE ((1:ℕ) : ℤ))) (centered (rotate MAJOR_PROFILE ((1:ℕ) : ℤ))) = 765849/40000 := by
  rw [centMaj1]
  norm_num [dot]

lemma dotQ_Maj2 : dot (centered (rotate MAJOR_PROFILE ((2:ℕ) : ℤ))) (centered (rotate MAJOR_PROFILE ((2:ℕ) : ℤ))) = 765849/40000 := by
  rw [centMaj2]
  norm_num [dot]

lemma dotQ_Maj3 : dot (centered (rotate MAJOR_PROFILE ((3:ℕ) : ℤ))) (centered (rotate MAJOR_PROFILE ((3:ℕ) : ℤ))) = 765849/40000 := by
  rw [centMaj3]
  norm_num [dot]

lemma dotQ_Maj4 : dot (centered (rotate MAJOR_PROFILE ((4:ℕ) : ℤ))) (centered (rotate MAJOR_PROFILE ((4:ℕ) : ℤ))) = 765849/40000 := by
  rw [centMaj4]
  norm_num [dot]

lemma dotQ_Maj5 : dot (centered (rotate MAJOR_PROFILE ((5:ℕ) : ℤ))) (centered (rotate MAJOR_PROFILE ((5:ℕ) : ℤ))) = 765849/40000 := by
  rw [centMaj5]
  norm_num [dot]

lemma dotQ_Maj6 : dot (centered (rotate MAJOR_PROFILE ((6:ℕ) : ℤ))) (centered (rotate MAJOR_PROFILE ((6:ℕ) : ℤ))) = 765849/40000 := by
  rw [centMaj6]
  norm_num [dot]

lemma dotQ_Maj7 : dot (centered (rotate MAJOR_PROFILE ((7:ℕ) : ℤ))) (centered (rotate MAJOR_PROFILE ((7:ℕ) : ℤ))) = 765849/40000 := by
  rw [centMaj7]
  norm_num [dot]

lemma dotQ_Maj8 : dot (centered (rotate MAJOR_PROFILE ((8:ℕ) : ℤ))) (centered (rotate MAJOR_PROFILE ((8:ℕ) : ℤ))) = 765849/40000 := by
  rw [centMaj8]
  norm_num [dot]

lemma dotQ_Maj9 : dot (centered (rotate MAJOR_PROFILE ((9:ℕ) : ℤ))) (centered (rotate MAJOR_PROFILE ((9:ℕ) : ℤ))) = 765849/40000 := by
  rw [centMaj9]
  norm_num [dot]

lemma dotQ_Maj10 : dot (centered (rotate MAJOR_PROFILE ((10:ℕ) : ℤ))) (centered (rotate MAJOR_PROFILE ((10:ℕ) : ℤ))) = 765849/40000 := by
  rw [centMaj10]
  norm_num [dot]

lemma dotQ_Maj11 : dot (centered (rotate MAJOR_PROFILE ((11:ℕ) : ℤ))) (centered (rotate MAJOR_PROFILE ((11:ℕ) : ℤ))) = 765849/40000 := by
  rw [centMaj11]
  norm_num [dot]

lemma dotQ_Min0 : dot (centered (rotate MINOR_PROFILE ((0:ℕ) : ℤ))) (centered (rotate MINOR_PROFILE ((0:ℕ) : ℤ))) = 1920851/120000 := by
  rw [centMin0]
  norm_num [dot]

lemma dotQ_Min1 : dot (centered (rotate MINOR_PROFILE ((1:ℕ) : ℤ))) (centered (rotate MINOR_PROFILE ((1:ℕ) : ℤ))) = 1920851/120000 := by
  rw [centMin1]
  norm_num [dot]

lemma dotQ_Min2 : dot (centered (rotate MINOR_PROFILE ((2:ℕ) : ℤ))) (centered (rotate MINOR_PROFILE ((2:ℕ) : ℤ))) = 1920851/120000 := by
  rw [centMin2]
  norm_num [dot]

lemma dotQ_Min3 : dot (centered (rotate MINOR_PROFILE ((3:ℕ) : ℤ))) (centered (rotate MINOR_PROFILE ((3:ℕ) : ℤ))) = 1920851/120000 := by
  rw [centMin3]
  norm_num [dot]

lemma dotQ_Min4 : dot (centered (rotate MINOR_PROFILE ((4:ℕ) : ℤ))) (centered (rotate MINOR_PROFILE ((4:ℕ) : ℤ))) = 1920851/120000 := by
  rw [centMin4]
  norm_num [dot]

lemma dotQ_Min5 : dot (centered (rotate MINOR_PROFILE ((5:ℕ) : ℤ))) (centered (rotate MINOR_PROFILE ((5:ℕ) : ℤ))) = 1920851/120000 := by
  rw [centMin5]
  norm_num [dot]

lemma dotQ_Min6 : dot (centered (rotate MINOR_PROFILE ((6:ℕ) : ℤ))) (centered (rotate MINOR_PROFILE ((6:ℕ) : ℤ))) = 1920851/120000 := by
  rw [centMin6]
  norm_num [dot]

lemma dotQ_Min7 : dot (centered (rotate MINOR_PROFILE ((7:ℕ) : ℤ))) (centered (rotate MINOR_PROFILE ((7:ℕ) : ℤ))) = 1920851/120000 := by
  rw [centMin7]
  norm_num [dot]

lemma dotQ_Min8 : dot (centered (rotate MINOR_PROFILE ((8:ℕ) : ℤ))) (centered (rotate MINOR_PROFILE ((8:ℕ) : ℤ))) = 1920851/120000 := by
  rw [centMin8]
  norm_num [dot]

lemma dotQ_Min9 : dot (centered (rotate MINOR_PROFILE ((9:ℕ) : ℤ))) (centered (rotate MINOR_PROFILE ((9:ℕ) : ℤ))) = 1920851/120000 := by
  rw [centMin9]
  norm_num [dot]

lemma dotQ_Min10 : dot (centered (rotate MINOR_PROFILE ((10:ℕ) : ℤ))) (centered (rotate MINOR_PROFILE ((10:ℕ) : ℤ))) = 1920851/120000 := by
  rw [centMin10]
  norm_num [dot]

lemma dotQ_Min11 : dot (centered (rotate MINOR_PROFILE ((11:ℕ) : ℤ))) (centered (rotate MINOR_PROFILE ((11:ℕ) : ℤ))) = 1920851/120000 := by
  rw [centMin11]
  norm_num [dot]

lemma dotD_triad_Maj0 : dot (centered triadNorm) (centered (rotate MAJOR_PROFILE ((0:ℕ) : ℤ))) = 3681/1840 := by
  rw [centTriad, centMaj0]
  norm_num [dot]

lemma dotD_e9_Maj0 : dot (centered oneHot9) (centered (rotate MAJOR_PROFILE ((0:ℕ) : ℤ))) = 71/400 := by
  rw [centE9, centMaj0]
  norm_num [dot]

lemma dotD_triad_Maj1 : dot (centered triadNorm) (centered (rotate MAJOR_PROFILE ((1:ℕ) : ℤ))) = (-(6611/9200)) := by
  rw [centTriad, centMaj1]
  norm_num [dot]

lemma dotD_e9_Maj1 : dot (centered oneHot9) (centered (rotate MAJOR_PROFILE ((1:ℕ) : ℤ))) = (-(477/400)) := by
  rw [centE9, centMaj1]
  norm_num [dot]

lemma dotD_triad_Maj2 : dot (centered triadNorm) (centered (rotate MAJOR_PROFILE ((2:ℕ) : ℤ))) = (-(1823/9200)) := by
  rw [centTriad, centMaj2]
  norm_num [dot]

lemma dotD_e9_Maj2 : dot (centered oneHot9) (centered (rotate MAJOR_PROFILE ((2:ℕ) : ℤ))) = (-(241/400)) := by
  rw [centE9, centMaj2]
  norm_num [dot]

lemma dotD_triad_Maj3 : dot (centered triadNorm) (centered (rotate MAJOR_PROFILE ((3:ℕ) : ℤ))) = (-(3851/9200)) := by
  rw [centTriad, centMaj3]
  norm_num [dot]

lemma dotD_e9_Maj3 : dot (centered oneHot9) (centered (rotate MAJOR_PROFILE ((3:ℕ) : ℤ))) = 1147/400 := by
  rw [centE9, centMaj3]
  norm_num [dot]

lemma dotD_triad_Maj4 : dot (centered triadNorm) (centered (rotate MAJOR_PROFILE ((4:ℕ) : ℤ))) = (-(719/9200)) := by
  rw [centTriad, centMaj4]
  norm_num [dot]

lemma dotD_e9_Maj4 : dot (centered oneHot9) (centered (rotate MAJOR_PROFILE ((4:ℕ) : ℤ))) = (-(501/400)) := by
  rw [centE9, centMaj4]
  norm_num [dot]

lemma dotD_triad_Maj5 : dot (centered triadNorm) (centered (rotate MAJOR_PROFILE ((5:ℕ) : ℤ))) = 2177/1840 := by
  rw [centTriad, centMaj5]
  norm_num [dot]

lemma dotD_e9_Maj5 : dot (centered oneHot9) (centered (rotate MAJOR_PROFILE ((5:ℕ) : ℤ))) = (-(1/400)) := by
  rw [centE9, centMaj5]
  norm_num [dot]

lemma dotD_triad_Maj6 : dot (centered triadNorm) (centered (rotate MAJOR_PROFILE ((6:ℕ) : ℤ))) = (-(10219/9200)) := by
  rw [centTriad, centMaj6]
  norm_num [dot]

lemma dotD_e9_Maj6 : dot (centered oneHot9) (centered (rotate MAJOR_PROFILE ((6:ℕ) : ℤ))) = (-(461/400)) := by
  rw [centE9, centMaj6]
  norm_num [dot]

lemma dotD_triad_Maj7 : dot (centered triadNorm) (centered (rotate MAJOR_PROFILE ((7:ℕ) : ℤ))) = 5377/9200 := by
  rw [centTriad, centMaj7]
  norm_num [dot]

lemma dotD_e9_Maj7 : dot (centered oneHot9) (centered (rotate MAJOR_PROFILE ((7:ℕ) : ℤ))) = 359/400 := by
  rw [centE9, centMaj7]
  norm_num [dot]

lemma dotD_triad_Maj8 : dot (centered triadNorm) (centered (rotate MAJOR_PROFILE ((8:ℕ) : ℤ))) = (-(143/1840)) := by
  rw [centTriad, centMaj8]
  norm_num [dot]

lemma dotD_e9_Maj8 : dot (centered oneHot9) (centered (rotate MAJOR_PROFILE ((8:ℕ) : ℤ))) = 243/400 := by
  rw [centE9, centMaj8]
  norm_num [dot]

lemma dotD_triad_Maj9 : dot (centered triadNorm) (centered (rotate MAJOR_PROFILE ((9:ℕ) : ℤ))) = 217/9200 := by
  rw [centTriad, centMaj9]
  norm_num [dot]

lemma dotD_e9_Maj9 : dot (centered oneHot9) (centered (rotate MAJOR_PROFILE ((9:ℕ) : ℤ))) = (-(77/80)) := by
  rw [centE9, centMaj9]
  norm_num [dot]

lemma dotD_triad_Maj10 : dot (centered triadNorm) (centered (rotate MAJOR_PROFILE ((10:ℕ) : ℤ))) = (-(123/368)) := by
  rw [centTriad, centMaj10]
  norm_num [dot]

lemma dotD_e9_Maj10 : dot (centered oneHot9) (centered (rotate MAJOR_PROFILE ((10:ℕ) : ℤ))) = 683/400 := by
  rw [centE9, centMaj10]
  norm_num [dot]

lemma dotD_triad_Maj11 : dot (centered triadNorm) (centered (rotate MAJOR_PROFILE ((11:ℕ) : ℤ))) = (-(7871/9200)) := by
  rw [centTriad, centMaj11]
  norm_num [dot]

lemma dotD_e9_Maj11 : dot (centered oneHot9) (centered (rotate MAJOR_PROFILE ((11:ℕ) : ℤ))) = (-(437/400)) := by
  rw [centE9, centMaj11]
  norm_num [dot]

lemma dotD_triad_Min0 : dot (centered triadNorm) (centered (rotate MINOR_PROFILE ((0:ℕ) : ℤ))) = 32207/27600 := by
  rw [centTriad, centMin0]
  norm_num [dot]

lemma dotD_e9_Min0 : dot (centered oneHot9) (centered (rotate MINOR_PROFILE ((0:ℕ) : ℤ))) = (-(1223/1200)) := by
  rw [centE9, centMin0]
  norm_num [dot]

lemma dotD_triad_Min1 : dot (centered triadNorm) (centered (rotate MINOR_PROFILE ((1:ℕ) : ℤ))) = (-(2273/5520)) := by
  rw [centTriad, centMin1]
  norm_num [dot]

lemma dotD_e9_Min1 : dot (centered oneHot9) (centered (rotate MINOR_PROFILE ((1:ℕ) : ℤ))) = (-(443/1200)) := by
  rw [centE9, centMin1]
  norm_num [dot]

lemma dotD_triad_Min2 : dot (centered triadNorm) (centered (rotate MINOR_PROFILE ((2:ℕ) : ℤ))) = (-(19249/27600)) := by
  rw [centTriad, centMin2]
  norm_num [dot]

lemma dotD_e9_Min2 : dot (centered oneHot9) (centered (rotate MINOR_PROFILE ((2:ℕ) : ℤ))) = (-(647/1200)) := by
  rw [centE9, centMin2]
  norm_num [dot]

lemma dotD_triad_Min3 : dot (centered triadNorm) (centered (rotate MINOR_PROFILE ((3:ℕ) : ℤ))) = 24443/27600 := by
  rw [centTriad, centMin3]
  norm_num [dot]

lemma dotD_e9_Min3 : dot (centered oneHot9) (centered (rotate MINOR_PROFILE ((3:ℕ) : ℤ))) = 629/240 := by
  rw [centE9, centMin3]
  norm_num [dot]

lemma dotD_triad_Min4 : dot (centered triadNorm) (centered (rotate MINOR_PROFILE ((4:ℕ) : ℤ))) = (-(15889/27600)) := by
  rw [centTriad, centMin4]
  norm_num [dot]

lemma dotD_e9_Min4 : dot (centered oneHot9) (centered (rotate MINOR_PROFILE ((4:ℕ) : ℤ))) = (-(247/240)) := by
  rw [centE9, centMin4]
  norm_num [dot]

lemma dotD_triad_Min5 : dot (centered triadNorm) (centered (rotate MINOR_PROFILE ((5:ℕ) : ℤ))) = 12527/27600 := by
  rw [centTriad, centMin5]
  norm_num [dot]

lemma dotD_e9_Min5 : dot (centered oneHot9) (centered (rotate MINOR_PROFILE ((5:ℕ) : ℤ))) = (-(227/1200)) := by
  rw [centE9, centMin5]
  norm_num [dot]

lemma dotD_triad_Min6 : dot (centered triadNorm) (centered (rotate MINOR_PROFILE ((6:ℕ) : ℤ))) = (-(25333/27600)) := by
  rw [centTriad, centMin6]
  norm_num [dot]

lemma dotD_e9_Min6 : dot (centered oneHot9) (centered (rotate MINOR_PROFILE ((6:ℕ) : ℤ))) = 401/240 := by
  rw [centE9, centMin6]
  norm_num [dot]

lemma dotD_triad_Min7 : dot (centered triadNorm) (centered (rotate MINOR_PROFILE ((7:ℕ) : ℤ))) = 7019/27600 := by
  rw [centTriad, centMin7]
  norm_num [dot]

lemma dotD_e9_Min7 : dot (centered oneHot9) (centered (rotate MINOR_PROFILE ((7:ℕ) : ℤ))) = (-(1331/1200)) := by
  rw [centE9, centMin7]
  norm_num [dot]

lemma dotD_triad_Min8 : dot (centered triadNorm) (centered (rotate MINOR_PROFILE ((8:ℕ) : ℤ))) = 7231/5520 := by
  rw [centTriad, centMin8]
  norm_num [dot]

lemma dotD_e9_Min8 : dot (centered oneHot9) (centered (rotate MINOR_PROFILE ((8:ℕ) : ℤ))) = (-(43/240)) := by
  rw [centE9, centMin8]
  norm_num [dot]

lemma dotD_triad_Min9 : dot (centered triadNorm) (centered (rotate MINOR_PROFILE ((9:ℕ) : ℤ))) = (-(1259/1200)) := by
  rw [centTriad, centMin9]
  norm_num [dot]

lemma dotD_e9_Min9 : dot (centered oneHot9) (centered (rotate MINOR_PROFILE ((9:ℕ) : ℤ))) = (-(1403/1200)) := by
  rw [centE9, centMin9]
  norm_num [dot]

lemma dotD_triad_Min10 : dot (centered triadNorm) (centered (rotate MINOR_PROFILE ((10:ℕ) : ℤ))) = (-(7297/27600)) := by
  rw [centTriad, centMin10]
  norm_num [dot]

lemma dotD_e9_Min10 : dot (centered oneHot9) (centered (rotate MINOR_PROFILE ((10:ℕ) : ℤ))) = 1249/1200 := by
  rw [centE9, centMin10]
  norm_num [dot]

lemma dotD_triad_Min11 : dot (centered triadNorm) (centered (rotate MINOR_PROFILE ((11:ℕ) : ℤ))) = (-(4261/27600)) := by
  rw [centTriad, centMin11]
  norm_num [dot]

lemma dotD_e9_Min11 : dot (centered oneHot9) (centered (rotate MINOR_PROFILE ((11:ℕ) : ℤ))) = 13/48 := by
  rw [centE9, centMin11]
  norm_num [dot]

end ConcreteEvaluations

section ConcreteDetection

lemma corr_le_corr_num (h p q : List ℝ) (A P Q Dp Dq : ℝ)
    (hA : dot (centered h) (centered h) = A)
    (hP : dot (centered p) (centered p) = P)
    (hQ : dot (centered q) (centered q) = Q)
    (hDp : dot (centered h) (centered p) = Dp)
    (hDq : dot (centered h) (centered q) = Dq)
    (hA0 : 0 < A) (hP0 : 0 < P) (hQ0 : 0 < Q) (hDq0 : 0 ≤ Dq)
    (hcase : Dp ≤ 0 ∨ Dp ^ 2 * Q ≤ Dq ^ 2 * P) :
    corr h p ≤ corr h q := by
  refine corr_le_corr h p q ?_ ?_ ?_ ?_ ?_
  · rw [hA]; exact hA0
  · rw [hP]; exact hP0
  · rw [hQ]; exact hQ0
  · rw [hDq]; exact hDq0
  · rw [hDp, hDq, hQ, hP]; exact hcase

lemma corr_lt_corr_num (h p q : List ℝ) (A P Q Dp Dq : ℝ)
    (hA : dot (centered h) (centered h) = A)
    (hP : dot (centered p) (centered p) = P)
    (hQ : dot (centered q) (centered q) = Q)
    (hDp : dot (centered h) (centered p) = Dp)
    (hDq : dot (centered h) (centered q) = Dq)
    (hA0 : 0 < A) (hP0 : 0 < P) (hQ0 : 0 < Q) (hDq0 : 0 < Dq)
    (hcase : Dp ≤ 0 ∨ Dp ^ 2 * Q < Dq ^ 2 * P) :
    corr h p < corr h q := by
  refine corr_lt_corr h p q ?_ ?_ ?_ ?_ ?_
  · rw [hA]; exact hA0
  · rw [hP]; exact hP0
  · rw [hQ]; exact hQ0
  · rw [hDq]; exact hDq0
  · rw [hDp, hDq, hQ, hP]; exact hcase

lemma corr_pos_num (h q : List ℝ) (A Q Dq : ℝ)
    (hA : dot (centered h) (centered h) = A)
    (hQ : dot (centered q) (centered q) = Q)
    (hDq : dot (centered h) (centered q) = Dq)
    (hA0 : 0 < A) (hQ0 : 0 < Q) (hDq0 : 0 < Dq) :
    0 < corr h q := by
  refine corr_pos h q ?_ ?_ ?_
  · rw [hA]; exact hA0
  · rw [hQ]; exact hQ0
  · rw [hDq]; exact hDq0

lemma cmpT_Min0 : corr triadNorm (rotate MINOR_PROFILE ((0:ℕ) : ℤ)) ≤ corr triadNorm (rotate MAJOR_PROFILE ((0:ℕ) : ℤ)) :=
  corr_le_corr_num _ _ _ _ _ _ _ _ dotA_triad dotQ_Min0 dotQ_Maj0
    dotD_triad_Min0 dotD_triad_Maj0
    (by norm_num) (by norm_num) (by norm_num) (by norm_num) (Or.inr (by norm_num))

lemma cmpT_Maj1 : corr triadNorm (rotate MAJOR_PROFILE ((1:ℕ) : ℤ)) ≤ corr triadNorm (rotate MAJOR_PROFILE ((0:ℕ) : ℤ)) :=
  corr_le_corr_num _ _ _ _ _ _ _ _ dotA_triad dotQ_Maj1 dotQ_Maj0
    dotD_triad_Maj1 dotD_triad_Maj0
    (by norm_num) (by norm_num) (by norm_num) (by norm_num) (Or.inl (by norm_num))

lemma cmpT_Min1 : corr triadNorm (rotate MINOR_PROFILE ((1:ℕ) : ℤ)) ≤ corr triadNorm (rotate MAJOR_PROFILE ((0:ℕ) : ℤ)) :=
  corr_le_corr_num _ _ _ _ _ _ _ _ dotA_triad dotQ_Min1 dotQ_Maj0
    dotD_triad_Min1 dotD_triad_Maj0
    (by norm_num) (by norm_num) (by norm_num) (by norm_num) (Or.inl (by norm_num))

lemma cmpT_Maj2 : corr triadNorm (rotate MAJOR_PROFILE ((2:ℕ) : ℤ)) ≤ corr triadNorm (rotate MAJOR_PROFILE ((0:ℕ) : ℤ)) :=
  corr_le_corr_num _ _ _ _ _ _ _ _ dotA_triad dotQ_Maj2 dotQ_Maj0
    dotD_triad_Maj2 dotD_triad_Maj0
    (by norm_num) (by norm_num) (by norm_num) (by norm_num) (Or.inl (by norm_num))

lemma cmpT_Min2 : corr triadNorm (rotate MINOR_PROFILE ((2:ℕ) : ℤ)) ≤ corr triadNorm (rotate MAJOR_PROFILE ((0:ℕ) : ℤ)) :=
  corr_le_corr_num _ _ _ _ _ _ _ _ dotA_triad dotQ_Min2 dotQ_Maj0
    dotD_triad_Min2 dotD_triad_Maj0
    (by norm_num) (by norm_num) (by norm_num) (by norm_num) (Or.inl (by norm_num))

lemma cmpT_Maj3 : corr triadNorm (rotate MAJOR_PROFILE ((3:ℕ) : ℤ)) ≤ corr triadNorm (rotate MAJOR_PROFILE ((0:ℕ) : ℤ)) :=
  corr_le_corr_num _ _ _ _ _ _ _ _ dotA_triad dotQ_Maj3 dotQ_Maj0
    dotD_triad_Maj3 dotD_triad_Maj0
    (by norm_num) (by norm_num) (by norm_num) (by norm_num) (Or.inl (by norm_num))

lemma cmpT_Min3 : corr triadNorm (rotate MINOR_PROFILE ((3:ℕ) : ℤ)) ≤ corr triadNorm (rotate MAJOR_PROFILE ((0:ℕ) : ℤ)) :=
  corr_le_corr_num _ _ _ _ _ _ _ _ dotA_triad dotQ_Min3 dotQ_Maj0
    dotD_triad_Min3 dotD_triad_Maj0
    (by norm_num) (by norm_num) (by norm_num) (by norm_num) (Or.inr (by norm_num))

lemma cmpT_Maj4 : corr triadNorm (rotate MAJOR_PROFILE ((4:ℕ) : ℤ)) ≤ corr triadNorm (rotate MAJOR_PROFILE ((0:ℕ) : ℤ)) :=
  corr_le_corr_num _ _ _ _ _ _ _ _ dotA_triad dotQ_Maj4 dotQ_Maj0
    dotD_triad_Maj4 dotD_triad_Maj0
    (by norm_num) (by norm_num) (by norm_num) (by norm_num) (Or.inl (by norm_num))

lemma cmpT_Min4 : corr triadNorm (rotate MINOR_PROFILE ((4:ℕ) : ℤ)) ≤ corr triadNorm (rotate MAJOR_PROFILE ((0:ℕ) : ℤ)) :=
  corr_le_corr_num _ _ _ _ _ _ _ _ dotA_triad dotQ_Min4 dotQ_Maj0
    dotD_triad_Min4 dotD_triad_Maj0
    (by norm_num) (by norm_num) (by norm_num) (by norm_num) (Or.inl (by norm_num))

lemma cmpT_Maj5 : corr triadNorm (rotate MAJOR_PROFILE ((5:ℕ) : ℤ)) ≤ corr triadNorm (rotate MAJOR_PROFILE ((0:ℕ) : ℤ)) :=
  corr_le_corr_num _ _ _ _ _ _ _ _ dotA_triad dotQ_Maj5 dotQ_Maj0
    dotD_triad_Maj5 dotD_triad_Maj0
    (by norm_num) (by norm_num) (by norm_num) (by norm_num) (Or.inr (by norm_num))

lemma cmpT_Min5 : corr triadNorm (rotate MINOR_PROFILE ((5:ℕ) : ℤ)) ≤ corr triadNorm (rotate MAJOR_PROFILE ((0:ℕ) : ℤ)) :=
  corr_le_corr_num _ _ _ _ _ _ _ _ dotA_triad dotQ_Min5 dotQ_Maj0
    dotD_triad_Min5 dotD_triad_Maj0
    (by norm_num) (by norm_num) (by norm_num) (by norm_num) (Or.inr (by norm_num))

lemma cmpT_Maj6 : corr triadNorm (rotate MAJOR_PROFILE ((6:ℕ) : ℤ)) ≤ corr triadNorm (rotate MAJOR_PROFILE ((0:ℕ) : ℤ)) :=
  corr_le_corr_num _ _ _ _ _ _ _ _ dotA_triad dotQ_Maj6 dotQ_Maj0
    dotD_triad_Maj6 dotD_triad_Maj0
    (by norm_num) (by norm_num) (by norm_num) (by norm_num) (Or.inl (by norm_num))

lemma cmpT_Min6 : corr triadNorm (rotate MINOR_PROFILE ((6:ℕ) : ℤ)) ≤ corr triadNorm (rotate MAJOR_PROFILE ((0:ℕ) : ℤ)) :=
  corr_le_corr_num _ _ _ _ _ _ _ _ dotA_triad dotQ_Min6 dotQ_Maj0
    dotD_triad_Min6 dotD_triad_Maj0
    (by norm_num) (by norm_num) (by norm_num) (by norm_num) (Or.inl (by norm_num))

lemma cmpT_Maj7 : corr triadNorm (rotate MAJOR_PROFILE ((7:ℕ) : ℤ)) ≤ corr triadNorm (rotate MAJOR_PROFILE ((0:ℕ) : ℤ)) :=
  corr_le_corr_num _ _ _ _ _ _ _ _ dotA_triad dotQ_Maj7 dotQ_Maj0
    dotD_triad_Maj7 dotD_triad_Maj0
    (by norm_num) (by norm_num) (by norm_num) (by norm_num) (Or.inr (by norm_num))

lemma cmpT_Min7 : corr triadNorm (rotate MINOR_PROFILE ((7:ℕ) : ℤ)) ≤ corr triadNorm (rotate MAJOR_PROFILE ((0:ℕ) : ℤ)) :=
  corr_le_corr_num _ _ _ _ _ _ _ _ dotA_triad dotQ_Min7 dotQ_Maj0
    dotD_triad_Min7 dotD_triad_Maj0
    (by norm_num) (by norm_num) (by norm_num) (by norm_num) (Or.inr (by norm_num))

lemma cmpT_Maj8 : corr triadNorm (rotate MAJOR_PROFILE ((8:ℕ) : ℤ)) ≤ corr triadNorm (rotate MAJOR_PROFILE ((0:ℕ) : ℤ)) :=
  corr_le_corr_num _ _ _ _ _ _ _ _ dotA_triad dotQ_Maj8 dotQ_Maj0
    dotD_triad_Maj8 dotD_triad_Maj0
    (by norm_num) (by norm_num) (by norm_num) (by norm_num) (Or.inl (by norm_num))

lemma cmpT_Min8 : corr triadNorm (rotate MINOR_PROFILE ((8:ℕ) : ℤ)) ≤ corr triadNorm (rotate MAJOR_PROFILE ((0:ℕ) : ℤ)) :=
  corr_le_corr_num _ _ _ _ _ _ _ _ dotA_triad dotQ_Min8 dotQ_Maj0
    dotD_triad_Min8 dotD_triad_Maj0
    (by norm_num) (by norm_num) (by norm_num) (by norm_num) (Or.inr (by norm_num))

lemma cmpT_Maj9 : corr triadNorm (rotate MAJOR_PROFILE ((9:ℕ) : ℤ)) ≤ corr triadNorm (rotate MAJOR_PROFILE ((0:ℕ) : ℤ)) :=
  corr_le_corr_num _ _ _ _ _ _ _ _ dotA_triad dotQ_Maj9 dotQ_Maj0
    dotD_triad_Maj9 dotD_triad_Maj0
    (by norm_num) (by norm_num) (by norm_num) (by norm_num) (Or.inr (by norm_num))

lemma cmpT_Min9 : corr triadNorm (rotate MINOR_PROFILE ((9:ℕ) : ℤ)) ≤ corr triadNorm (rotate MAJOR_PROFILE ((0:ℕ) : ℤ)) :=
  corr_le_corr_num _ _ _ _ _ _ _ _ dotA_triad dotQ_Min9 dotQ_Maj0
    dotD_triad_Min9 dotD_triad_Maj0
    (by norm_num) (by norm_num) (by norm_num) (by norm_num) (Or.inl (by norm_num))

lemma cmpT_Maj10 : corr triadNorm (rotate MAJOR_PROFILE ((10:ℕ) : ℤ)) ≤ corr triadNorm (rotate MAJOR_PROFILE ((0:ℕ) : ℤ)) :=
  corr_le_corr_num _ _ _ _ _ _ _ _ dotA_triad dotQ_Maj10 dotQ_Maj0
    dotD_triad_Maj10 dotD_triad_Maj0
    (by norm_num) (by norm_num) (by norm_num) (by norm_num) (Or.inl (by norm_num))

lemma cmpT_Min10 : corr triadNorm (rotate MINOR_PROFILE ((10:ℕ) : ℤ)) ≤ corr triadNorm (rotate MAJOR_PROFILE ((0:ℕ) : ℤ)) :=
  corr_le_corr_num _ _ _ _ _ _ _ _ dotA_triad dotQ_Min10 dotQ_Maj0
    dotD_triad_Min10 dotD_triad_Maj0
    (by norm_num) (by norm_num) (by norm_num) (by norm_num) (Or.inl (by norm_num))

lemma cmpT_Maj11 : corr triadNorm (rotate MAJOR_PROFILE ((11:ℕ) : ℤ)) ≤ corr triadNorm (rotate MAJOR_PROFILE ((0:ℕ) : ℤ)) :=
  corr_le_corr_num _ _ _ _ _ _ _ _ dotA_triad dotQ_Maj11 dotQ_Maj0
    dotD_triad_Maj11 dotD_triad_Maj0
    (by norm_num) (by norm_num) (by norm_num) (by norm_num) (Or.inl (by norm_num))

lemma cmpT_Min11 : corr triadNorm (rotate MINOR_PROFILE ((11:ℕ) : ℤ)) ≤ corr triadNorm (rotate MAJOR_PROFILE ((0:ℕ) : ℤ)) :=
  corr_le_corr_num _ _ _ _ _ _ _ _ dotA_triad dotQ_Min11 dotQ_Maj0
    dotD_triad_Min11 dotD_triad_Maj0
    (by norm_num) (by norm_num) (by norm_num) (by norm_num) (Or.inl (by norm_num))

lemma cmpE_pre_Maj0 : corr oneHot9 (rotate MAJOR_PROFILE ((0:ℕ) : ℤ)) < corr oneHot9 (rotate MAJOR_PROFILE ((3:ℕ) : ℤ)) :=
  corr_lt_corr_num _ _ _ _ _ _ _ _ dotA_e9 dotQ_Maj0 dotQ_Maj3
    dotD_e9_Maj0 dotD_e9_Maj3
    (by norm_num) (by norm_num) (by norm_num) (by norm_num) (Or.inr (by norm_num))

lemma cmpE_pre_Min0 : corr oneHot9 (rotate MINOR_PROFILE ((0:ℕ) : ℤ)) < corr oneHot9 (rotate MAJOR_PROFILE ((3:ℕ) : ℤ)) :=
  corr_lt_corr_num _ _ _ _ _ _ _ _ dotA_e9 dotQ_Min0 dotQ_Maj3
    dotD_e9_Min0 dotD_e9_Maj3
    (by norm_num) (by norm_num) (by norm_num) (by norm_num) (Or.inl (by norm_num))

lemma cmpE_pre_Maj1 : corr oneHot9 (rotate MAJOR_PROFILE ((1:ℕ) : ℤ)) < corr oneHot9 (rotate MAJOR_PROFILE ((3:ℕ) : ℤ)) :=
  corr_lt_corr_num _ _ _ _ _ _ _ _ dotA_e9 dotQ_Maj1 dotQ_Maj3
    dotD_e9_Maj1 dotD_e9_Maj3
    (by norm_num) (by norm_num) (by norm_num) (by norm_num) (Or.inl (by norm_num))

lemma cmpE_pre_Min1 : corr oneHot9 (rotate MINOR_PROFILE ((1:ℕ) : ℤ)) < corr oneHot9 (rotate MAJOR_PROFILE ((3:ℕ) : ℤ)) :=
  corr_lt_corr_num _ _ _ _ _ _ _ _ dotA_e9 dotQ_Min1 dotQ_Maj3
    dotD_e9_Min1 dotD_e9_Maj3
    (by norm_num) (by norm_num) (by norm_num) (by norm_num) (Or.inl (by norm_num))

lemma cmpE_pre_Maj2 : corr oneHot9 (rotate MAJOR_PROFILE ((2:ℕ) : ℤ)) < corr oneHot9 (rotate MAJOR_PROFILE ((3:ℕ) : ℤ)) :=
  corr_lt_corr_num _ _ _ _ _ _ _ _ dotA_e9 dotQ_Maj2 dotQ_Maj3
    dotD_e9_Maj2 dotD_e9_Maj3
    (by norm_num) (by norm_num) (by norm_num) (by norm_num) (Or.inl (by norm_num))

lemma cmpE_pre_Min2 : corr oneHot9 (rotate MINOR_PROFILE ((2:ℕ) : ℤ)) < corr oneHot9 (rotate MAJOR_PROFILE ((3:ℕ) : ℤ)) :=
  corr_lt_corr_num _ _ _ _ _ _ _ _ dotA_e9 dotQ_Min2 dotQ_Maj3
    dotD_e9_Min2 dotD_e9_Maj3
    (by norm_num) (by norm_num) (by norm_num) (by norm_num) (Or.inl (by norm_num))

lemma cmpE_post_Min3 : corr oneHot9 (rotate MINOR_PROFILE ((3:ℕ) : ℤ)) ≤ corr oneHot9 (rotate MAJOR_PROFILE ((3:ℕ) : ℤ)) :=
  corr_le_corr_num _ _ _ _ _ _ _ _ dotA_e9 dotQ_Min3 dotQ_Maj3
    dotD_e9_Min3 dotD_e9_Maj3
    (by norm_num) (by norm_num) (by norm_num) (by norm_num) (Or.inr (by norm_num))

lemma cmpE_post_Maj4 : corr oneHot9 (rotate MAJOR_PROFILE ((4:ℕ) : ℤ)) ≤ corr oneHot9 (rotate MAJOR_PROFILE ((3:ℕ) : ℤ)) :=
  corr_le_corr_num _ _ _ _ _ _ _ _ dotA_e9 dotQ_Maj4 dotQ_Maj3
    dotD_e9_Maj4 dotD_e9_Maj3
    (by norm_num) (by norm_num) (by norm_num) (by norm_num) (Or.inl (by norm_num))

lemma cmpE_post_Min4 : corr oneHot9 (rotate MINOR_PROFILE ((4:ℕ) : ℤ)) ≤ corr oneHot9 (rotate MAJOR_PROFILE ((3:ℕ) : ℤ)) :=
  corr_le_corr_num _ _ _ _ _ _ _ _ dotA_e9 dotQ_Min4 dotQ_Maj3
    dotD_e9_Min4 dotD_e9_Maj3
    (by norm_num) (by norm_num) (by norm_num) (by norm_num) (Or.inl (by norm_num))

lemma cmpE_post_Maj5 : corr oneHot9 (rotate MAJOR_PROFILE ((5:ℕ) : ℤ)) ≤ corr oneHot9 (rotate MAJOR_PROFILE ((3:ℕ) : ℤ)) :=
  corr_le_corr_num _ _ _ _ _ _ _ _ dotA_e9 dotQ_Maj5 dotQ_Maj3
    dotD_e9_Maj5 dotD_e9_Maj3
    (by norm_num) (by norm_num) (by norm_num) (by norm_num) (Or.inl (by norm_num))

lemma cmpE_post_Min5 : corr oneHot9 (rotate MINOR_PROFILE ((5:ℕ) : ℤ)) ≤ corr oneHot9 (rotate MAJOR_PROFILE ((3:ℕ) : ℤ)) :=
  corr_le_corr_num _ _ _ _ _ _ _ _ dotA_e9 dotQ_Min5 dotQ_Maj3
    dotD_e9_Min5 dotD_e9_Maj3
    (by norm_num) (by norm_num) (by norm_num) (by norm_num) (Or.inl (by norm_num))

lemma cmpE_post_Maj6 : corr oneHot9 (rotate MAJOR_PROFILE ((6:ℕ) : ℤ)) ≤ corr oneHot9 (rotate MAJOR_PROFILE ((3:ℕ) : ℤ)) :=
  corr_le_corr_num _ _ _ _ _ _ _ _ dotA_e9 dotQ_Maj6 dotQ_Maj3
    dotD_e9_Maj6 dotD_e9_Maj3
    (by norm_num) (by norm_num) (by norm_num) (by norm_num) (Or.inl (by norm_num))

lemma cmpE_post_Min6 : corr oneHot9 (rotate MINOR_PROFILE ((6:ℕ) : ℤ)) ≤ corr oneHot9 (rotate MAJOR_PROFILE ((3:ℕ) : ℤ)) :=
  corr_le_corr_num _ _ _ _ _ _ _ _ dotA_e9 dotQ_Min6 dotQ_Maj3
    dotD_e9_Min6 dotD_e9_Maj3
    (by norm_num) (by norm_num) (by norm_num) (by norm_num) (Or.inr (by norm_num))

lemma cmpE_post_Maj7 : corr oneHot9 (rotate MAJOR_PROFILE ((7:ℕ) : ℤ)) ≤ corr oneHot9 (rotate MAJOR_PROFILE ((3:ℕ) : ℤ)) :=
  corr_le_corr_num _ _ _ _ _ _ _ _ dotA_e9 dotQ_Maj7 dotQ_Maj3
    dotD_e9_Maj7 dotD_e9_Maj3
    (by norm_num) (by norm_num) (by norm_num) (by norm_num) (Or.inr (by norm_num))

lemma cmpE_post_Min7 : corr oneHot9 (rotate MINOR_PROFILE ((7:ℕ) : ℤ)) ≤ corr oneHot9 (rotate MAJOR_PROFILE ((3:ℕ) : ℤ)) :=
  corr_le_corr_num _ _ _ _ _ _ _ _ dotA_e9 dotQ_Min7 dotQ_Maj3
    dotD_e9_Min7 dotD_e9_Maj3
    (by norm_num) (by norm_num) (by norm_num) (by norm_num) (Or.inl (by norm_num))

lemma cmpE_post_Maj8 : corr oneHot9 (rotate MAJOR_PROFILE ((8:ℕ) : ℤ)) ≤ corr oneHot9 (rotate MAJOR_PROFILE ((3:ℕ) : ℤ)) :=
  corr_le_corr_num _ _ _ _ _ _ _ _ dotA_e9 dotQ_Maj8 dotQ_Maj3
    dotD_e9_Maj8 dotD_e9_Maj3
    (by norm_num) (by norm_num) (by norm_num) (by norm_num) (Or.inr (by norm_num))

lemma cmpE_post_Min8 : corr oneHot9 (rotate MINOR_PROFILE ((8:ℕ) : ℤ)) ≤ corr oneHot9 (rotate MAJOR_PROFILE ((3:ℕ) : ℤ)) :=
  corr_le_corr_num _ _ _ _ _ _ _ _ dotA_e9 dotQ_Min8 dotQ_Maj3
    dotD_e9_Min8 dotD_e9_Maj3
    (by norm_num) (by norm_num) (by norm_num) (by norm_num) (Or.inl (by norm_num))

lemma cmpE_post_Maj9 : corr oneHot9 (rotate MAJOR_PROFILE ((9:ℕ) : ℤ)) ≤ corr oneHot9 (rotate MAJOR_PROFILE ((3:ℕ) : ℤ)) :=
  corr_le_corr_num _ _ _ _ _ _ _ _ dotA_e9 dotQ_Maj9 dotQ_Maj3
    dotD_e9_Maj9 dotD_e9_Maj3
    (by norm_num) (by norm_num) (by norm_num) (by norm_num) (Or.inl (by norm_num))

lemma cmpE_post_Min9 : corr oneHot9 (rotate MINOR_PROFILE ((9:ℕ) : ℤ)) ≤ corr oneHot9 (rotate MAJOR_PROFILE ((3:ℕ) : ℤ)) :=
  corr_le_corr_num _ _ _ _ _ _ _ _ dotA_e9 dotQ_Min9 dotQ_Maj3
    dotD_e9_Min9 dotD_e9_Maj3
    (by norm_num) (by norm_num) (by norm_num) (by norm_num) (Or.inl (by norm_num))

lemma cmpE_post_Maj10 : corr oneHot9 (rotate MAJOR_PROFILE ((10:ℕ) : ℤ)) ≤ corr oneHot9 (rotate MAJOR_PROFILE ((3:ℕ) : ℤ)) :=
  corr_le_corr_num _ _ _ _ _ _ _ _ dotA_e9 dotQ_Maj10 dotQ_Maj3
    dotD_e9_Maj10 dotD_e9_Maj3
    (by norm_num) (by norm_num) (by norm_num) (by norm_num) (Or.inr (by norm_num))

lemma cmpE_post_Min10 : corr oneHot9 (rotate MINOR_PROFILE ((10:ℕ) : ℤ)) ≤ corr oneHot9 (rotate MAJOR_PROFILE ((3:ℕ) : ℤ)) :=
  corr_le_corr_num _ _ _ _ _ _ _ _ dotA_e9 dotQ_Min10 dotQ_Maj3
    dotD_e9_Min10 dotD_e9_Maj3
    (by norm_num) (by norm_num) (by norm_num) (by norm_num) (Or.inr (by norm_num))

lemma cmpE_post_Maj11 : corr oneHot9 (rotate MAJOR_PROFILE ((11:ℕ) : ℤ)) ≤ corr oneHot9 (rotate MAJOR_PROFILE ((3:ℕ) : ℤ)) :=
  corr_le_corr_num _ _ _ _ _ _ _ _ dotA_e9 dotQ_Maj11 dotQ_Maj3
    dotD_e9_Maj11 dotD_e9_Maj3
    (by norm_num) (by norm_num) (by norm_num) (by norm_num) (Or.inl (by norm_num))

lemma cmpE_post_Min11 : corr oneHot9 (rotate MINOR_PROFILE ((11:ℕ) : ℤ)) ≤ corr oneHot9 (rotate MAJOR_PROFILE ((3:ℕ) : ℤ)) :=
  corr_le_corr_num _ _ _ _ _ _ _ _ dotA_e9 dotQ_Min11 dotQ_Maj3
    dotD_e9_Min11 dotD_e9_Maj3
    (by norm_num) (by norm_num) (by norm_num) (by norm_num) (Or.inr (by norm_num))

lemma scoreEntriesTriad : scoreEntries triadNorm =
    ⟨0, Mode.major, corr triadNorm (rotate MAJOR_PROFILE ((0:ℕ) : ℤ))⟩ ::
    [⟨0, Mode.minor, corr triadNorm (rotate MINOR_PROFILE ((0:ℕ) : ℤ))⟩,
      ⟨1, Mode.major, corr triadNorm (rotate MAJOR_PROFILE ((1:ℕ) : ℤ))⟩,
      ⟨1, Mode.minor, corr triadNorm (rotate MINOR_PROFILE ((1:ℕ) : ℤ))⟩,
      ⟨2, Mode.major, corr triadNorm (rotate MAJOR_PROFILE ((2:ℕ) : ℤ))⟩,
      ⟨2, Mode.minor, corr triadNorm (rotate MINOR_PROFILE ((2:ℕ) : ℤ))⟩,
      ⟨3, Mode.major, corr triadNorm (rotate MAJOR_PROFILE ((3:ℕ) : ℤ))⟩,
      ⟨3, Mode.minor, corr triadNorm (rotate MINOR_PROFILE ((3:ℕ) : ℤ))⟩,
      ⟨4, Mode.major, corr triadNorm (rotate MAJOR_PROFILE ((4:ℕ) : ℤ))⟩,
      ⟨4, Mode.minor, corr triadNorm (rotate MINOR_PROFILE ((4:ℕ) : ℤ))⟩,
      ⟨5, Mode.major, corr triadNorm (rotate MAJOR_PROFILE ((5:ℕ) : ℤ))⟩,
      ⟨5, Mode.minor, corr triadNorm (rotate MINOR_PROFILE ((5:ℕ) : ℤ))⟩,
      ⟨6, Mode.major, corr triadNorm (rotate MAJOR_PROFILE ((6:ℕ) : ℤ))⟩,
      ⟨6, Mode.minor, corr triadNorm (rotate MINOR_PROFILE ((6:ℕ) : ℤ))⟩,
      ⟨7, Mode.major, corr triadNorm (rotate MAJOR_PROFILE ((7:ℕ) : ℤ))⟩,
      ⟨7, Mode.minor, corr triadNorm (rotate MINOR_PROFILE ((7:ℕ) : ℤ))⟩,
      ⟨8, Mode.major, corr triadNorm (rotate MAJOR_PROFILE ((8:ℕ) : ℤ))⟩,
      ⟨8, Mode.minor, corr triadNorm (rotate MINOR_PROFILE ((8:ℕ) : ℤ))⟩,
      ⟨9, Mode.major, corr triadNorm (rotate MAJOR_PROFILE ((9:ℕ) : ℤ))⟩,
      ⟨9, Mode.minor, corr triadNorm (rotate MINOR_PROFILE ((9:ℕ) : ℤ))⟩,
      ⟨10, Mode.major, corr triadNorm (rotate MAJOR_PROFILE ((10:ℕ) : ℤ))⟩,
      ⟨10, Mode.minor, corr triadNorm (rotate MINOR_PROFILE ((10:ℕ) : ℤ))⟩,
      ⟨11, Mode.major, corr triadNorm (rotate MAJOR_PROFILE ((11:ℕ) : ℤ))⟩,
      ⟨11, Mode.minor, corr triadNorm (rotate MINOR_PROFILE ((11:ℕ) : ℤ))⟩] := rfl

lemma scoreEntriesE9 : scoreEntries oneHot9 =
    [⟨0, Mode.major, corr oneHot9 (rotate MAJOR_PROFILE ((0:ℕ) : ℤ))⟩,
      ⟨0, Mode.minor, corr oneHot9 (rotate MINOR_PROFILE ((0:ℕ) : ℤ))⟩,
      ⟨1, Mode.major, corr oneHot9 (rotate MAJOR_PROFILE ((1:ℕ) : ℤ))⟩,
      ⟨1, Mode.minor, corr oneHot9 (rotate MINOR_PROFILE ((1:ℕ) : ℤ))⟩,
      ⟨2, Mode.major, corr oneHot9 (rotate MAJOR_PROFILE ((2:ℕ) : ℤ))⟩,
      ⟨2, Mode.minor, corr oneHot9 (rotate MINOR_PROFILE ((2:ℕ) : ℤ))⟩] ++
    ⟨3, Mode.major, corr oneHot9 (rotate MAJOR_PROFILE ((3:ℕ) : ℤ))⟩ ::
    [⟨3, Mode.minor, corr oneHot9 (rotate MINOR_PROFILE ((3:ℕ) : ℤ))⟩,
      ⟨4, Mode.major, corr oneHot9 (rotate MAJOR_PROFILE ((4:ℕ) : ℤ))⟩,
      ⟨4, Mode.minor, corr oneHot9 (rotate MINOR_PROFILE ((4:ℕ) : ℤ))⟩,
      ⟨5, Mode.major, corr oneHot9 (rotate MAJOR_PROFILE ((5:ℕ) : ℤ))⟩,
      ⟨5, Mode.minor, corr oneHot9 (rotate MINOR_PROFILE ((5:ℕ) : ℤ))⟩,
      ⟨6, Mode.major, corr oneHot9 (rotate MAJOR_PROFILE ((6:ℕ) : ℤ))⟩,
      ⟨6, Mode.minor, corr oneHot9 (rotate MINOR_PROFILE ((6:ℕ) : ℤ))⟩,
      ⟨7, Mode.major, corr oneHot9 (rotate MAJOR_PROFILE ((7:ℕ) : ℤ))⟩,
      ⟨7, Mode.minor, corr oneHot9 (rotate MINOR_PROFILE ((7:ℕ) : ℤ))⟩,
      ⟨8, Mode.major, corr oneHot9 (rotate MAJOR_PROFILE ((8:ℕ) : ℤ))⟩,
      ⟨8, Mode.minor, corr oneHot9 (rotate MINOR_PROFILE ((8:ℕ) : ℤ))⟩,
      ⟨9, Mode.major, corr oneHot9 (rotate MAJOR_PROFILE ((9:ℕ) : ℤ))⟩,
      ⟨9, Mode.minor, corr oneHot9 (rotate MINOR_PROFILE ((9:ℕ) : ℤ))⟩,
      ⟨10, Mode.major, corr oneHot9 (rotate MAJOR_PROFILE ((10:ℕ) : ℤ))⟩,
      ⟨10, Mode.minor, corr oneHot9 (rotate MINOR_PROFILE ((10:ℕ) : ℤ))⟩,
      ⟨11, Mode.major, corr oneHot9 (rotate MAJOR_PROFILE ((11:ℕ) : ℤ))⟩,
      ⟨11, Mode.minor, corr oneHot9 (rotate MINOR_PROFILE ((11:ℕ) : ℤ))⟩] := rfl

lemma scoreEntriesOnes : scoreEntries onesNorm =
    ⟨0, Mode.major, corr onesNorm (rotate MAJOR_PROFILE ((0:ℕ) : ℤ))⟩ ::
    [⟨0, Mode.minor, corr onesNorm (rotate MINOR_PROFILE ((0:ℕ) : ℤ))⟩,
      ⟨1, Mode.major, corr onesNorm (rotate MAJOR_PROFILE ((1:ℕ) : ℤ))⟩,
      ⟨1, Mode.minor, corr onesNorm (rotate MINOR_PROFILE ((1:ℕ) : ℤ))⟩,
      ⟨2, Mode.major, corr onesNorm (rotate MAJOR_PROFILE ((2:ℕ) : ℤ))⟩,
      ⟨2, Mode.minor, corr onesNorm (rotate MINOR_PROFILE ((2:ℕ) : ℤ))⟩,
      ⟨3, Mode.major, corr onesNorm (rotate MAJOR_PROFILE ((3:ℕ) : ℤ))⟩,
      ⟨3, Mode.minor, corr onesNorm (rotate MINOR_PROFILE ((3:ℕ) : ℤ))⟩,
      ⟨4, Mode.major, corr onesNorm (rotate MAJOR_PROFILE ((4:ℕ) : ℤ))⟩,
      ⟨4, Mode.minor, corr onesNorm (rotate MINOR_PROFILE ((4:ℕ) : ℤ))⟩,
      ⟨5, Mode.major, corr onesNorm (rotate MAJOR_PROFILE ((5:ℕ) : ℤ))⟩,
      ⟨5, Mode.minor, corr onesNorm (rotate MINOR_PROFILE ((5:ℕ) : ℤ))⟩,
      ⟨6, Mode.major, corr onesNorm (rotate MAJOR_PROFILE ((6:ℕ) : ℤ))⟩,
      ⟨6, Mode.minor, corr onesNorm (rotate MINOR_PROFILE ((6:ℕ) : ℤ))⟩,
      ⟨7, Mode.major, corr onesNorm (rotate MAJOR_PROFILE ((7:ℕ) : ℤ))⟩,
      ⟨7, Mode.minor, corr onesNorm (rotate MINOR_PROFILE ((7:ℕ) : ℤ))⟩,
      ⟨8, Mode.major, corr onesNorm (rotate MAJOR_PROFILE ((8:ℕ) : ℤ))⟩,
      ⟨8, Mode.minor, corr onesNorm (rotate MINOR_PROFILE ((8:ℕ) : ℤ))⟩,
      ⟨9, Mode.major, corr onesNorm (rotate MAJOR_PROFILE ((9:ℕ) : ℤ))⟩,
      ⟨9, Mode.minor, corr onesNorm (rotate MINOR_PROFILE ((9:ℕ) : ℤ))⟩,
      ⟨10, Mode.major, corr onesNorm (rotate MAJOR_PROFILE ((10:ℕ) : ℤ))⟩,
      ⟨10, Mode.minor, corr onesNorm (rotate MINOR_PROFILE ((10:ℕ) : ℤ))⟩,
      ⟨11, Mode.major, corr onesNorm (rotate MAJOR_PROFILE ((11:ℕ) : ℤ))⟩,
      ⟨11, Mode.minor, corr onesNorm (rotate MINOR_PROFILE ((11:ℕ) : ℤ))⟩] := rfl

lemma bestLoop_triad :
    bestLoop triadNorm = some ⟨0, Mode.major, corr triadNorm (rotate MAJOR_PROFILE ((0:ℕ) : ℤ))⟩ := by
  rw [bestLoop_eq, scoreEntriesTriad]
  refine foldl_updOpt_middle (fun e : BestAcc => e.score) [] _ _ (fun e he => absurd he (List.not_mem_nil e)) ?_
  intro e he
  simp only [List.mem_cons, List.mem_nil_iff, or_false] at he
  rcases he with rfl | rfl | rfl | rfl | rfl | rfl | rfl | rfl | rfl | rfl | rfl | rfl | rfl | rfl | rfl | rfl | rfl | rfl | rfl | rfl | rfl | rfl | rfl
  · exact cmpT_Min0
  · exact cmpT_Maj1
  · exact cmpT_Min1
  · exact cmpT_Maj2
  · exact cmpT_Min2
  · exact cmpT_Maj3
  · exact cmpT_Min3
  · exact cmpT_Maj4
  · exact cmpT_Min4
  · exact cmpT_Maj5
  · exact cmpT_Min5
  · exact cmpT_Maj6
  · exact cmpT_Min6
  · exact cmpT_Maj7
  · exact cmpT_Min7
  · exact cmpT_Maj8
  · exact cmpT_Min8
  · exact cmpT_Maj9
  · exact cmpT_Min9
  · exact cmpT_Maj10
  · exact cmpT_Min10
  · exact cmpT_Maj11
  · exact cmpT_Min11

lemma bestLoop_e9 :
    bestLoop oneHot9 = some ⟨3, Mode.major, corr oneHot9 (rotate MAJOR_PROFILE ((3:ℕ) : ℤ))⟩ := by
  rw [bestLoop_eq, scoreEntriesE9]
  refine foldl_updOpt_middle (fun e : BestAcc => e.score) _ _ _ ?_ ?_
  · intro e he
    simp only [List.mem_cons, List.mem_nil_iff, or_false] at he
    rcases he with rfl | rfl | rfl | rfl | rfl | rfl
    · exact cmpE_pre_Maj0
    · exact cmpE_pre_Min0
    · exact cmpE_pre_Maj1
    · exact cmpE_pre_Min1
    · exact cmpE_pre_Maj2
    · exact cmpE_pre_Min2
  · intro e he
    simp only [List.mem_cons, List.mem_nil_iff, or_false] at he
    rcases he with rfl | rfl | rfl | rfl | rfl | rfl | rfl | rfl | rfl | rfl | rfl | rfl | rfl | rfl | rfl | rfl | rfl
    · exact cmpE_post_Min3
    · exact cmpE_post_Maj4
    · exact cmpE_post_Min4
    · exact cmpE_post_Maj5
    · exact cmpE_post_Min5
    · exact cmpE_post_Maj6
    · exact cmpE_post_Min6
    · exact cmpE_post_Maj7
    · exact cmpE_post_Min7
    · exact cmpE_post_Maj8
    · exact cmpE_post_Min8
    · exact cmpE_post_Maj9
    · exact cmpE_post_Min9
    · exact cmpE_post_Maj10
    · exact cmpE_post_Min10
    · exact cmpE_post_Maj11
    · exact cmpE_post_Min11

end ConcreteDetection

section ConcreteResults

lemma norm_centered_onesNorm : norm (centered onesNorm) = 0 := by
  have hc : centered onesNorm = [0, 0, 0, 0, 0, 0, 0, 0, 0, 0, 0, 0] := by
    norm_num [centered, onesNorm, mean]
  rw [norm, hc]
  norm_num [dot]

lemma corr_onesNorm_zero (p : List ℝ) (hp : p.length = 12) : corr onesNorm p = 0 :=
  corr_eq_zero_of_centered_norm_zero onesNorm p (Or.inl norm_centered_onesNorm)

lemma bestLoop_ones :
    bestLoop onesNorm
      = some ⟨0, Mode.major, corr onesNorm (rotate MAJOR_PROFILE ((0:ℕ) : ℤ))⟩ := by
  rw [bestLoop_eq, scoreEntriesOnes]
  refine foldl_updOpt_middle (fun e : BestAcc => e.score) [] _ _
    (fun e he => absurd he (List.not_mem_nil e)) ?_
  intro e he
  simp only [List.mem_cons, List.mem_nil_iff, or_false] at he
  rcases he with rfl | rfl | rfl | rfl | rfl | rfl | rfl | rfl | rfl | rfl | rfl | rfl | rfl | rfl | rfl | rfl | rfl | rfl | rfl | rfl | rfl | rfl | rfl
  · exact le_of_eq (by rw [corr_onesNorm_zero (rotate MINOR_PROFILE ((0:ℕ) : ℤ)) rfl, corr_onesNorm_zero (rotate MAJOR_PROFILE ((0:ℕ) : ℤ)) rfl])
  · exact le_of_eq (by rw [corr_onesNorm_zero (rotate MAJOR_PROFILE ((1:ℕ) : ℤ)) rfl, corr_onesNorm_zero (rotate MAJOR_PROFILE ((0:ℕ) : ℤ)) rfl])
  · exact le_of_eq (by rw [corr_onesNorm_zero (rotate MINOR_PROFILE ((1:ℕ) : ℤ)) rfl, corr_onesNorm_zero (rotate MAJOR_PROFILE ((0:ℕ) : ℤ)) rfl])
  · exact le_of_eq (by rw [corr_onesNorm_zero (rotate MAJOR_PROFILE ((2:ℕ) : ℤ)) rfl, corr_onesNorm_zero (rotate MAJOR_PROFILE ((0:ℕ) : ℤ)) rfl])
  · exact le_of_eq (by rw [corr_onesNorm_zero (rotate MINOR_PROFILE ((2:ℕ) : ℤ)) rfl, corr_onesNorm_zero (rotate MAJOR_PROFILE ((0:ℕ) : ℤ)) rfl])
  · exact le_of_eq (by rw [corr_onesNorm_zero (rotate MAJOR_PROFILE ((3:ℕ) : ℤ)) rfl, corr_onesNorm_zero (rotate MAJOR_PROFILE ((0:ℕ) : ℤ)) rfl])
  · exact le_of_eq (by rw [corr_onesNorm_zero (rotate MINOR_PROFILE ((3:ℕ) : ℤ)) rfl, corr_onesNorm_zero (rotate MAJOR_PROFILE ((0:ℕ) : ℤ)) rfl])
  · exact le_of_eq (by rw [corr_onesNorm_zero (rotate MAJOR_PROFILE ((4:ℕ) : ℤ)) rfl, corr_onesNorm_zero (rotate MAJOR_PROFILE ((0:ℕ) : ℤ)) rfl])
  · exact le_of_eq (by rw [corr_onesNorm_zero (rotate MINOR_PROFILE ((4:ℕ) : ℤ)) rfl, corr_onesNorm_zero (rotate MAJOR_PROFILE ((0:ℕ) : ℤ)) rfl])
  · exact le_of_eq (by rw [corr_onesNorm_zero (rotate MAJOR_PROFILE ((5:ℕ) : ℤ)) rfl, corr_onesNorm_zero (rotate MAJOR_PROFILE ((0:ℕ) : ℤ)) rfl])
  · exact le_of_eq (by rw [corr_onesNorm_zero (rotate MINOR_PROFILE ((5:ℕ) : ℤ)) rfl, corr_onesNorm_zero (rotate MAJOR_PROFILE ((0:ℕ) : ℤ)) rfl])
  · exact le_of_eq (by rw [corr_onesNorm_zero (rotate MAJOR_PROFILE ((6:ℕ) : ℤ)) rfl, corr_onesNorm_zero (rotate MAJOR_PROFILE ((0:ℕ) : ℤ)) rfl])
  · exact le_of_eq (by rw [corr_onesNorm_zero (rotate MINOR_PROFILE ((6:ℕ) : ℤ)) rfl, corr_onesNorm_zero (rotate MAJOR_PROFILE ((0:ℕ) : ℤ)) rfl])
  · exact le_of_eq (by rw [corr_onesNorm_zero (rotate MAJOR_PROFILE ((7:ℕ) : ℤ)) rfl, corr_onesNorm_zero (rotate MAJOR_PROFILE ((0:ℕ) : ℤ)) rfl])
  · exact le_of_eq (by rw [corr_onesNorm_zero (rotate MINOR_PROFILE ((7:ℕ) : ℤ)) rfl, corr_onesNorm_zero (rotate MAJOR_PROFILE ((0:ℕ) : ℤ)) rfl])
  · exact le_of_eq (by rw [corr_onesNorm_zero (rotate MAJOR_PROFILE ((8:ℕ) : ℤ)) rfl, corr_onesNorm_zero (rotate MAJOR_PROFILE ((0:ℕ) : ℤ)) rfl])
  · exact le_of_eq (by rw [corr_onesNorm_zero (rotate MINOR_PROFILE ((8:ℕ) : ℤ)) rfl, corr_onesNorm_zero (rotate MAJOR_PROFILE ((0:ℕ) : ℤ)) rfl])
  · exact le_of_eq (by rw [corr_onesNorm_zero (rotate MAJOR_PROFILE ((9:ℕ) : ℤ)) rfl, corr_onesNorm_zero (rotate MAJOR_PROFILE ((0:ℕ) : ℤ)) rfl])
  · exact le_of_eq (by rw [corr_onesNorm_zero (rotate MINOR_PROFILE ((9:ℕ) : ℤ)) rfl, corr_onesNorm_zero (rotate MAJOR_PROFILE ((0:ℕ) : ℤ)) rfl])
  · exact le_of_eq (by rw [corr_onesNorm_zero (rotate MAJOR_PROFILE ((10:ℕ) : ℤ)) rfl, corr_onesNorm_zero (rotate MAJOR_PROFILE ((0:ℕ) : ℤ)) rfl])
  · exact le_of_eq (by rw [corr_onesNorm_zero (rotate MINOR_PROFILE ((10:ℕ) : ℤ)) rfl, corr_onesNorm_zero (rotate MAJOR_PROFILE ((0:ℕ) : ℤ)) rfl])
  · exact le_of_eq (by rw [corr_onesNorm_zero (rotate MAJOR_PROFILE ((11:ℕ) : ℤ)) rfl, corr_onesNorm_zero (rotate MAJOR_PROFILE ((0:ℕ) : ℤ)) rfl])
  · exact le_of_eq (by rw [corr_onesNorm_zero (rotate MINOR_PROFILE ((11:ℕ) : ℤ)) rfl, corr_onesNorm_zero (rotate MAJOR_PROFILE ((0:ℕ) : ℤ)) rfl])

lemma maxpos_triad :
    ¬ listMax (normalizeHistogram [10, 0, 0, 0, 6, 0, 0, 7, 0, 0, 0, 0]) ≤ 0 := by
  rw [normalize_triad]
  intro hle
  have hmem : (10/23 : ℝ) ∈ triadNorm := by simp [triadNorm]
  have h2 := le_listMax triadNorm (10/23) hmem
  have h3 : (0:ℝ) < 10/23 := by norm_num
  linarith

lemma maxpos_e9 :
    ¬ listMax (normalizeHistogram [0, 0, 0, 0, 0, 0, 0, 0, 0, 1, 0, 0]) ≤ 0 := by
  rw [normalize_oneHot9]
  intro hle
  have hmem : (1 : ℝ) ∈ oneHot9 := by simp [oneHot9]
  have h2 := le_listMax oneHot9 1 hmem
  linarith

lemma maxpos_ones : ¬ listMax (normalizeHistogram onesHist) ≤ 0 := by
  rw [normalize_ones]
  intro hle
  have hmem : (1/12 : ℝ) ∈ onesNorm := by simp [onesNorm]
  have h2 := le_listMax onesNorm (1/12) hmem
  have h3 : (0:ℝ) < 1/12 := by norm_num
  linarith

/-- The winning score of the C-major-triad histogram: the Pearson correlation
of the normalized histogram with the unrotated major profile. -/
def triadScore : ℝ := corr triadNorm (rotate MAJOR_PROFILE ((0:ℕ) : ℤ))

/-- The detection result the code produces for the C-major-triad histogram. -/
def triadResult : KeyDetectionResult :=
  ⟨"C", Mode.major, max 0 (min 1 ((triadScore + 1) / 2)), triadNorm⟩

/-- The winning score of the pure-A histogram: the correlation with the major
profile rotated by tonic index 3. -/
def e9Score : ℝ := corr oneHot9 (rotate MAJOR_PROFILE ((3:ℕ) : ℤ))

/-- The detection result the code produces for the pure-A histogram: it is
labeled with tonic "D#", not "A". -/
def e9Result : KeyDetectionResult :=
  ⟨"D#", Mode.major, max 0 (min 1 ((e9Score + 1) / 2)), oneHot9⟩

/-- The (zero) winning score of the flat all-ones histogram. -/
def onesScore : ℝ := corr onesNorm (rotate MAJOR_PROFILE ((0:ℕ) : ℤ))

/-- The detection result the code produces for the flat all-ones histogram. -/
def onesResult : KeyDetectionResult :=
  ⟨"C", Mode.major, max 0 (min 1 ((onesScore + 1) / 2)), onesNorm⟩

lemma detect_triad :
    detectKeyFromPitchClassHistogram [10, 0, 0, 0, 6, 0, 0, 7, 0, 0, 0, 0]
      = .ok (some triadResult) := by
  have hb : bestLoop (normalizeHistogram [10, 0, 0, 0, 6, 0, 0, 7, 0, 0, 0, 0])
      = some ⟨0, Mode.major, triadScore⟩ := by
    rw [normalize_triad]
    exact bestLoop_triad
  rw [detect_some [10, 0, 0, 0, 6, 0, 0, 7, 0, 0, 0, 0] rfl maxpos_triad _ hb,
    normalize_triad]
  rfl

lemma detect_e9 :
    detectKeyFromPitchClassHistogram [0, 0, 0, 0, 0, 0, 0, 0, 0, 1, 0, 0]
      = .ok (some e9Result) := by
  have hb : bestLoop (normalizeHistogram [0, 0, 0, 0, 0, 0, 0, 0, 0, 1, 0, 0])
      = some ⟨3, Mode.major, e9Score⟩ := by
    rw [normalize_oneHot9]
    exact bestLoop_e9
  rw [detect_some [0, 0, 0, 0, 0, 0, 0, 0, 0, 1, 0, 0] rfl maxpos_e9 _ hb,
    normalize_oneHot9]
  rfl

lemma detect_ones :
    detectKeyFromPitchClassHistogram onesHist = .ok (some onesResult) := by
  have hb : bestLoop (normalizeHistogram onesHist)
      = some ⟨0, Mode.major, onesScore⟩ := by
    rw [normalize_ones]
    exact bestLoop_ones
  rw [detect_some onesHist rfl maxpos_ones _ hb, normalize_ones]
  rfl

lemma triadScore_pos : 0 < triadScore :=
  corr_pos_num _ _ _ _ _ dotA_triad dotQ_Maj0 dotD_triad_Maj0
    (by norm_num) (by norm_num) (by norm_num)

lemma onesScore_eq_zero : onesScore = 0 :=
  corr_onesNorm_zero (rotate MAJOR_PROFILE ((0:ℕ) : ℤ)) rfl

/-- Claim C3: for the histogram `[10,0,0,0,6,0,0,7,0,0,0,0]` (strong weight on
the C-major triad pitch classes 0, 4, 7), the detector returns tonic "C", mode
major, with confidence strictly greater than 1/2. -/
theorem detect_c_major_triad_key :
    ∃ r : KeyDetectionResult,
      detectKeyFromPitchClassHistogram [10, 0, 0, 0, 6, 0, 0, 7, 0, 0, 0, 0]
          = .ok (some r) ∧
        r.tonic = "C" ∧ r.mode = Mode.major ∧ 1 / 2 < r.confidence := by
  refine ⟨triadResult, detect_triad, rfl, rfl, ?_⟩
  show 1 / 2 < max 0 (min 1 ((triadScore + 1) / 2))
  have h1 : 1 / 2 < min 1 ((triadScore + 1) / 2) := by
    have := triadScore_pos
    refine lt_min (by norm_num) (by linarith)
  exact lt_of_lt_of_le h1 (le_max_right 0 _)

/-- Claim C2, evaluated on the code: for the histogram with all tonal energy in
pitch class 9 (a pure 440 Hz A tone), the detector returns a result labeled
with tonic "D#" (major), not "A".  The profile rotation is a left rotation, so
the candidate labeled with tonic index `t` is actually correlated against a
profile whose tonic is `-t mod 12`; the histogram peaked at pitch class 9 is
best matched by the entry labeled 3 (D#). -/
theorem detect_pure_a_tone_mislabels_tonic :
    ∃ r : KeyDetectionResult,
      detectKeyFromPitchClassHistogram [0, 0, 0, 0, 0, 0, 0, 0, 0, 1, 0, 0]
          = .ok (some r) ∧
        r.tonic = "D#" ∧ r.mode = Mode.major ∧ r.tonic ≠ "A" :=
  ⟨e9Result, detect_e9, rfl, rfl, by decide⟩

/-- Witness for C7: the triad histogram (positive winning score) and the flat
all-ones histogram (zero winning score) instantiate every hypothesis of the
confidence specification. -/
theorem confidence_spec_witness :
    detectKeyFromPitchClassHistogram [10, 0, 0, 0, 6, 0, 0, 7, 0, 0, 0, 0]
        = .ok (some triadResult) ∧
      detectKeyFromPitchClassHistogram onesHist = .ok (some onesResult) ∧
      (0 ≤ triadResult.confidence ∧ triadResult.confidence ≤ 1) ∧
      onesResult.confidence ≤ triadResult.confidence := by
  have hmain := confidence_spec _ _ detect_triad
  have hbT : bestLoop (normalizeHistogram [10, 0, 0, 0, 6, 0, 0, 7, 0, 0, 0, 0])
      = some ⟨0, Mode.major, triadScore⟩ := by
    rw [normalize_triad]
    exact bestLoop_triad
  have hbO : bestLoop (normalizeHistogram onesHist)
      = some ⟨0, Mode.major, onesScore⟩ := by
    rw [normalize_ones]
    exact bestLoop_ones
  refine ⟨detect_triad, detect_ones, ⟨hmain.2.1, hmain.2.2.1⟩, ?_⟩
  refine hmain.2.2.2.2 onesHist onesResult ⟨0, Mode.major, triadScore⟩
    ⟨0, Mode.major, onesScore⟩ detect_ones hbT hbO ?_
  show onesScore < triadScore
  rw [onesScore_eq_zero]
  exact triadScore_pos

end ConcreteResults


section Facade

/-- One frequency-bin iteration of the inner loop of `detectKeyFromAudioUrl`:
skip the DC bin 0, skip bins quieter than -85 dB, skip frequencies outside
50-2000 Hz, convert dB to linear magnitude `10^(db/20)`, map the frequency to a
pitch class through `midi = 69 + 12*log2(freq/440)` rounded to nearest, and add
the magnitude into that pitch class's bin.  The JS `Number.isFinite` guard has
no counterpart because every real number of the model is finite. -/
def accumulateBin (sampleRate : ℝ) (fftSize : ℕ) (freqBins : List ℝ)
    (h : List ℝ) (bin : ℕ) : List ℝ :=
  if bin = 0 then h
  else
    let db := freqBins.getD bin 0
    if db < -85 then h
    else
      let freq := (bin : ℝ) * sampleRate / (fftSize : ℝ)
      if freq < 50 ∨ freq > 2000 then h
      else
        let mag : ℝ := (10 : ℝ) ^ (db / 20)
        let midi : ℝ := 69 + 12 * Real.logb 2 (freq / 440)
        let pc : ℕ := ((round midi % 12 + 12) % 12).toNat
        h.set pc (h.getD pc 0 + mag)

/-- The `for (let bin = 1; bin < freqBins.length; bin++)` loop of
`detectKeyFromAudioUrl`, accumulating one frame's spectrum into the running
raw-total histogram. -/
def processFrame (sampleRate : ℝ) (fftSize : ℕ) (hist : List ℝ)
    (freqBins : List ℝ) : List ℝ :=
  (List.range freqBins.length).foldl (accumulateBin sampleRate fftSize freqBins) hist

/-- The frame loop of `detectKeyFromAudioUrl`: starting from all-zero raw and
smoothed vectors, each frame's spectrum is added into the raw total and then
every bin of the smoothed vector is updated by
`smooth[pc] = alpha*smooth[pc] + (1-alpha)*hist[pc]`.  The per-frame spectra
delivered by the Web Audio analyser are the external input of the model. -/
def analyzeFrames (sampleRate : ℝ) (fftSize : ℕ) (alpha : ℝ)
    (spectra : List (List ℝ)) : List ℝ × List ℝ :=
  spectra.foldl
    (fun st freqBins =>
      let hist := processFrame sampleRate fftSize st.1 freqBins
      let smooth := List.zipWith (fun s h => alpha * s + (1 - alpha) * h) st.2 hist
      (hist, smooth))
    (List.replicate 12 0, List.replicate 12 0)

/-- The pure core of `detectKeyFromAudioUrl` as a function of the per-frame
spectra: run the frame loop with `alpha = 0.85` and pass the final smoothed
vector (not the raw total) to the histogram matcher. -/
def detectKeyFromAudioUrlModel (sampleRate : ℝ) (fftSize : ℕ)
    (spectra : List (List ℝ)) : Except String (Option KeyDetectionResult) :=
  detectKeyFromPitchClassHistogram (analyzeFrames sampleRate fftSize 0.85 spectra).2

lemma accumulateBin_length (sampleRate : ℝ) (fftSize : ℕ) (freqBins h : List ℝ)
    (bin : ℕ) : (accumulateBin sampleRate fftSize freqBins h bin).length = h.length := by
  simp only [accumulateBin]
  split
  · rfl
  split
  · rfl
  split
  · rfl
  exact List.length_set h _ _

lemma processFrame_length (sampleRate : ℝ) (fftSize : ℕ) (hist freqBins : List ℝ) :
    (processFrame sampleRate fftSize hist freqBins).length = hist.length := by
  unfold processFrame
  generalize List.range freqBins.length = L
  induction L generalizing hist with
  | nil => rfl
  | cons b bs ih =>
      rw [List.foldl_cons, ih, accumulateBin_length]

lemma analyzeFrames_aux_length (sampleRate : ℝ) (fftSize : ℕ) (alpha : ℝ) :
    ∀ (spectra : List (List ℝ)) (st : List ℝ × List ℝ),
      st.1.length = 12 → st.2.length = 12 →
      (spectra.foldl
        (fun st freqBins =>
          let hist := processFrame sampleRate fftSize st.1 freqBins
          let smooth := List.zipWith (fun s h => alpha * s + (1 - alpha) * h) st.2 hist
          (hist, smooth)) st).1.length = 12 ∧
      (spectra.foldl
        (fun st freqBins =>
          let hist := processFrame sampleRate fftSize st.1 freqBins
          let smooth := List.zipWith (fun s h => alpha * s + (1 - alpha) * h) st.2 hist
          (hist, smooth)) st).2.length = 12 := by
  intro spectra
  induction spectra with
  | nil => intro st h1 h2; exact ⟨h1, h2⟩
  | cons fb rest ih =>
      intro st h1 h2
      rw [List.foldl_cons]
      refine ih _ ?_ ?_
      · rw [processFrame_length]
        exact h1
      · rw [List.length_zipWith, processFrame_length, h1, h2]
        exact Nat.min_self 12

lemma analyzeFrames_length (sampleRate : ℝ) (fftSize : ℕ) (alpha : ℝ)
    (spectra : List (List ℝ)) :
    (analyzeFrames sampleRate fftSize alpha spectra).1.length = 12 ∧
      (analyzeFrames sampleRate fftSize alpha spectra).2.length = 12 := by
  unfold analyzeFrames
  exact analyzeFrames_aux_length sampleRate fftSize alpha spectra _
    (List.length_replicate 12 0) (List.length_replicate 12 0)

lemma analyzeFrames_take_succ (sampleRate : ℝ) (fftSize : ℕ) (alpha : ℝ)
    (spectra : List (List ℝ)) (k : ℕ) (hk : k < spectra.length) :
    analyzeFrames sampleRate fftSize alpha (spectra.take (k+1))
      = (processFrame sampleRate fftSize
            (analyzeFrames sampleRate fftSize alpha (spectra.take k)).1
            (spectra.get ⟨k, hk⟩),
          List.zipWith (fun s h => alpha * s + (1 - alpha) * h)
            (analyzeFrames sampleRate fftSize alpha (spectra.take k)).2
            (processFrame sampleRate fftSize
              (analyzeFrames sampleRate fftSize alpha (spectra.take k)).1
              (spectra.get ⟨k, hk⟩))) := by
  have htake : spectra.take (k+1) = spectra.take k ++ [spectra.get ⟨k, hk⟩] := by
    rw [List.take_succ, List.getElem?_eq_getElem hk]
    rfl
  rw [htake]
  unfold analyzeFrames
  rw [List.foldl_append]
  rfl

lemma getD_zipWith (f : ℝ → ℝ → ℝ) :
    ∀ (a b : List ℝ) (i : ℕ), i < a.length → i < b.length →
      (List.zipWith f a b).getD i 0 = f (a.getD i 0) (b.getD i 0) := by
  intro a
  induction a with
  | nil =>
      intro b i hi _
      exact absurd hi (Nat.not_lt_zero i)
  | cons x xs ih =>
      intro b i hi hib
      cases b with
      | nil => exact absurd hib (Nat.not_lt_zero i)
      | cons y ys =>
          cases i with
          | zero => rfl
          | succ j =>
              simp only [List.zipWith_cons_cons, List.getD_cons_succ]
              exact ih ys j (Nat.lt_of_succ_lt_succ hi) (Nat.lt_of_succ_lt_succ hib)

/-- Claim C8: in the audio-analysis facade, each frame's spectrum is added into
the running raw-total vector by `processFrame`, every bin of the smoothed
vector is then updated by `smooth[pc] = alpha*smooth[pc] + (1-alpha)*hist[pc]`
with `alpha = 0.85`, both vectors start at all zeros, and the final smoothed
vector (not the raw total) is the histogram the facade passes to the matcher. -/
theorem facade_smoothing_recurrence (sampleRate : ℝ) (fftSize : ℕ)
    (spectra : List (List ℝ)) (k : ℕ) (hk : k < spectra.length)
    (pc : ℕ) (hpc : pc < 12) :
    (analyzeFrames sampleRate fftSize 0.85 (spectra.take (k+1))).1
        = processFrame sampleRate fftSize
            (analyzeFrames sampleRate fftSize 0.85 (spectra.take k)).1
            (spectra.get ⟨k, hk⟩) ∧
      (analyzeFrames sampleRate fftSize 0.85 (spectra.take (k+1))).2.getD pc 0
        = 0.85 * (analyzeFrames sampleRate fftSize 0.85 (spectra.take k)).2.getD pc 0
            + (1 - 0.85) *
              (analyzeFrames sampleRate fftSize 0.85 (spectra.take (k+1))).1.getD pc 0 ∧
      analyzeFrames sampleRate fftSize 0.85 ([] : List (List ℝ))
        = (List.replicate 12 0, List.replicate 12 0) ∧
      detectKeyFromAudioUrlModel sampleRate fftSize spectra
        = detectKeyFromPitchClassHistogram
            (analyzeFrames sampleRate fftSize 0.85 spectra).2 := by
  have hstep := analyzeFrames_take_succ sampleRate fftSize 0.85 spectra k hk
  refine ⟨by rw [hstep], ?_, rfl, rfl⟩
  rw [hstep]
  have hl1 := (analyzeFrames_length sampleRate fftSize 0.85 (spectra.take k)).1
  have hl2 := (analyzeFrames_length sampleRate fftSize 0.85 (spectra.take k)).2
  have hlh : (processFrame sampleRate fftSize
      (analyzeFrames sampleRate fftSize 0.85 (spectra.take k)).1
      (spectra.get ⟨k, hk⟩)).length = 12 := by
    rw [processFrame_length]
    exact hl1
  exact getD_zipWith _ _ _ pc (by rw [hl2]; exact hpc) (by rw [hlh]; exact hpc)

/-- Witness for C8 at a one-frame spectrum whose single non-DC bin is below the
noise floor. -/
theorem facade_smoothing_recurrence_witness :
    0 < ([[(-100 : ℝ), -100]] : List (List ℝ)).length ∧ (0:ℕ) < 12 ∧
      ((analyzeFrames 44100 4096 0.85 (([[(-100 : ℝ), -100]] : List (List ℝ)).take (0+1))).1
          = processFrame 44100 4096
              (analyzeFrames 44100 4096 0.85 (([[(-100 : ℝ), -100]] : List (List ℝ)).take 0)).1
              (([[(-100 : ℝ), -100]] : List (List ℝ)).get ⟨0, by norm_num⟩) ∧
        (analyzeFrames 44100 4096 0.85 (([[(-100 : ℝ), -100]] : List (List ℝ)).take (0+1))).2.getD 0 0
          = 0.85 * (analyzeFrames 44100 4096 0.85
                (([[(-100 : ℝ), -100]] : List (List ℝ)).take 0)).2.getD 0 0
              + (1 - 0.85) *
                (analyzeFrames 44100 4096 0.85
                  (([[(-100 : ℝ), -100]] : List (List ℝ)).take (0+1))).1.getD 0 0 ∧
        analyzeFrames 44100 4096 0.85 ([] : List (List ℝ))
          = (List.replicate 12 0, List.replicate 12 0) ∧
        detectKeyFromAudioUrlModel 44100 4096 [[(-100 : ℝ), -100]]
          = detectKeyFromPitchClassHistogram
              (analyzeFrames 44100 4096 0.85 [[(-100 : ℝ), -100]]).2) :=
  ⟨by norm_num, by norm_num,
    facade_smoothing_recurrence 44100 4096 [[(-100 : ℝ), -100]] 0 (by norm_num) 0 (by norm_num)⟩

end Facade

end

end KeyDetect
